import Mathlib

/-!
# Our_Game: entity / collision / animation core

A shallow embedding of `src/1.h` (the classes `GameObject`, `GameObjectSystem`,
`ImageObject`, `Character`) and of the scene and collision callback of
`src/main_4.cpp`, together with theorems about them.

Conventions of the embedding:

* A C++ `float` value is the rational it denotes (`ℚ`); infinities and NaN are
  outside the model.  Comparisons and branching are those of the source.
* The movement arithmetic of `Character::HandleInput` is binary32 arithmetic:
  every `+`, `-`, `*` there is the exact result rounded to the nearest float,
  ties to even (`roundToFloat`), and the literal `0.7071f` is the float nearest
  to 7071/10000.  The other sums and products of the core (world rectangles,
  half extents, the animation timer, the scaled texture size) are written
  with the exact operation.
* C++ `int` values are modelled by `Int`; `%` is the truncating remainder
  `Int.tmod`, `/` the truncating quotient `Int.tdiv`.
* `std::vector` is `List`, `std::map<std::string, _>` is a list of key/value
  pairs with strictly ascending keys (the iteration order of the map).
* A member function that mutates `this` returns the new object.
* Drawing, texture loading and key polling are raylib's; what the core reads
  from them (a texture handle, the keys held, the frame time) is an argument.
-/

namespace OurGame

/-! ## raylib value types -/

/-- The raylib `Vector2`: two floats. -/
structure Vector2 where
  x : ℚ
  y : ℚ
  deriving DecidableEq, Repr

/-- The raylib `Rectangle`: top-left corner and size. -/
structure Rectangle where
  x : ℚ
  y : ℚ
  width : ℚ
  height : ℚ
  deriving DecidableEq, Repr

/-- The raylib `Color`: four channels. -/
structure Color where
  r : Nat
  g : Nat
  b : Nat
  a : Nat
  deriving DecidableEq, Repr

/-- The raylib `Texture2D`, reduced to the fields the core reads: the handle
`id` (0 means "no texture") and the pixel dimensions. -/
structure Texture2D where
  id : Nat
  width : Int
  height : Int
  deriving DecidableEq, Repr

def RED : Color := ⟨230, 41, 55, 255⟩
def GREEN : Color := ⟨0, 228, 48, 255⟩
def BLUE : Color := ⟨0, 121, 241, 255⟩
def YELLOW : Color := ⟨253, 249, 0, 255⟩
def WHITE : Color := ⟨255, 255, 255, 255⟩

/-- Modelled from the spec: raylib's `CheckCollisionRecs` is called by
`GameObject::CheckCollision` but is not part of the sources.  The spec calls it
the "standard AABB intersection", "tested for overlap via interval intersection
per axis", with "touching edges as non-overlapping": on each axis each
rectangle starts strictly before the other one ends. -/
def CheckCollisionRecs (rec1 rec2 : Rectangle) : Bool :=
  decide (rec1.x < rec2.x + rec2.width) && decide (rec1.x + rec1.width > rec2.x) &&
  (decide (rec1.y < rec2.y + rec2.height) && decide (rec1.y + rec1.height > rec2.y))

/-! ## binary32 arithmetic -/

/-- Round a rational to the nearest integer, a tie going to the even one. -/
def roundHalfEven (m : ℚ) : ℤ :=
  if m - ⌊m⌋ < 1 / 2 then ⌊m⌋
  else if m - ⌊m⌋ > 1 / 2 then ⌊m⌋ + 1
  else if ⌊m⌋ % 2 = 0 then ⌊m⌋ else ⌊m⌋ + 1

/-- The binary exponent a float uses for a value of the size of `q`: the `e`
with `2 ^ e <= |q| < 2 ^ (e + 1)`, and -126 for the subnormal range. -/
def floatExponent (q : ℚ) : ℤ :=
  max (Int.log 2 |q|) (-126)

/-- The `float` nearest to `q`, ties to even: `q` rounded to a multiple of
`2 ^ (e - 23)`, the spacing of the floats with 24 significant bits around it.
Overflow to infinity (`|q| >= 2 ^ 128`) is outside the model. -/
def roundToFloat (q : ℚ) : ℚ :=
  if q = 0 then 0
  else (roundHalfEven (q / 2 ^ (floatExponent q - 23)) : ℚ) * 2 ^ (floatExponent q - 23)

/-- The sum `a + b` of two floats, as a float. -/
def floatAdd (a b : ℚ) : ℚ := roundToFloat (a + b)

/-- The difference `a - b` of two floats, as a float. -/
def floatSub (a b : ℚ) : ℚ := roundToFloat (a - b)

/-- The product `a * b` of two floats, as a float. -/
def floatMul (a b : ℚ) : ℚ := roundToFloat (a * b)

/-- The literal `0.7071f`: the float nearest to 7071/10000. -/
def float0_7071 : ℚ := roundToFloat (7071 / 10000)

/-- The rational `q` is the value of a float. -/
def IsFloat (q : ℚ) : Prop := roundToFloat q = q

/-! ## Enumerations -/

/-- The source's `enum class Direction`. -/
inductive Direction where
  | DOWN
  | LEFT
  | RIGHT
  | UP
  deriving DecidableEq, Repr

/-- The source's `enum class AnimationState`. -/
inductive AnimationState where
  | IDLE
  | WALKING
  deriving DecidableEq, Repr

/-! ## CollisionComponent and GameObject -/

/-- The source's `struct CollisionComponent`. -/
structure CollisionComponent where
  rect : Rectangle
  debugColor : Color
  isSolid : Bool
  name : String
  visible : Bool
  deriving DecidableEq, Repr

/-- The default constructor `CollisionComponent()`. -/
def CollisionComponent.default : CollisionComponent :=
  { rect := ⟨0, 0, 0, 0⟩, debugColor := RED, isSolid := true, name := "", visible := true }

/-- The constructor `CollisionComponent(r, c, solid, n)`. -/
def CollisionComponent.mk4 (r : Rectangle) (c : Color) (solid : Bool) (n : String) :
    CollisionComponent :=
  { rect := r, debugColor := c, isSolid := solid, name := n, visible := true }

/-- The data members of the source's `class GameObject`. -/
structure GameObject where
  id : String
  position : Vector2
  visible : Bool
  collisionComponents : List CollisionComponent
  deriving DecidableEq, Repr

namespace GameObject

/-- The constructor `GameObject(objId)`. -/
def new (objId : String) : GameObject :=
  { id := objId, position := ⟨0, 0⟩, visible := true, collisionComponents := [] }

/-- The local copy `worldRect = collision.rect; worldRect.x += position.x;
worldRect.y += position.y;` made in both `CheckCollision` overloads. -/
def worldRect (position : Vector2) (collision : CollisionComponent) : Rectangle :=
  { collision.rect with
    x := collision.rect.x + position.x
    y := collision.rect.y + position.y }

/-- The loop of `GameObject::CheckCollision(const Rectangle&)` over the
remaining components. -/
def checkRectLoop (position : Vector2) (other : Rectangle) : List CollisionComponent → Bool
  | [] => false
  | collision :: rest =>
    if collision.isSolid then
      if CheckCollisionRecs (worldRect position collision) other then true
      else checkRectLoop position other rest
    else checkRectLoop position other rest

/-- The member `bool GameObject::CheckCollision(const Rectangle& other) const`. -/
def CheckCollision (self : GameObject) (other : Rectangle) : Bool :=
  checkRectLoop self.position other self.collisionComponents

/-- The inner loop of `GameObject::CheckCollision(const GameObject&)`: the
components of `other` against one world rectangle of `this`. -/
def checkInnerLoop (myWorldRect : Rectangle) (otherPosition : Vector2) :
    List CollisionComponent → Bool
  | [] => false
  | otherCollision :: rest =>
    if otherCollision.isSolid then
      if CheckCollisionRecs myWorldRect (worldRect otherPosition otherCollision) then true
      else checkInnerLoop myWorldRect otherPosition rest
    else checkInnerLoop myWorldRect otherPosition rest

/-- The outer loop of `GameObject::CheckCollision(const GameObject&)`. -/
def checkOuterLoop (position : Vector2) (other : GameObject) : List CollisionComponent → Bool
  | [] => false
  | myCollision :: rest =>
    if myCollision.isSolid then
      if checkInnerLoop (worldRect position myCollision) other.position
          other.collisionComponents then true
      else checkOuterLoop position other rest
    else checkOuterLoop position other rest

/-- The overload `bool GameObject::CheckCollision(const GameObject& other) const`. -/
def CheckCollisionObject (self other : GameObject) : Bool :=
  checkOuterLoop self.position other self.collisionComponents

/-- The member `GameObject::SetPosition`. -/
def SetPosition (self : GameObject) (newPos : Vector2) : GameObject :=
  { self with position := newPos }

/-- The member `GameObject::SetVisible`. -/
def SetVisible (self : GameObject) (isVisible : Bool) : GameObject :=
  { self with visible := isVisible }

/-- The member `GameObject::AddCollisionComponent(const CollisionComponent&)`. -/
def AddCollisionComponent (self : GameObject) (collision : CollisionComponent) : GameObject :=
  { self with collisionComponents := self.collisionComponents ++ [collision] }

/-- The member `GameObject::ClearCollisionComponents`. -/
def ClearCollisionComponents (self : GameObject) : GameObject :=
  { self with collisionComponents := [] }

end GameObject

/-! ## GameObjectSystem -/

/-- The source's `class GameObjectSystem`: the member `objects`, a
`std::map` from id to object, as the list of its entries in iteration order
(strictly ascending keys). -/
structure GameObjectSystem where
  objects : List (String × GameObject)
  sorted : (objects.map Prod.fst).Pairwise (fun a b => a < b)

namespace GameObjectSystem

/-- The member `GameObjectSystem::GetObject`: `none` is the null pointer. -/
def GetObject (self : GameObjectSystem) (id : String) : Option GameObject :=
  (self.objects.find? (fun entry => entry.1 == id)).map Prod.snd

/-- The overload `GameObjectSystem::CheckCollision(id, rect)`. -/
def CheckCollisionRect (self : GameObjectSystem) (id : String) (rect : Rectangle) : Bool :=
  match self.GetObject id with
  | some obj => obj.CheckCollision rect
  | none => false

/-- The overload `GameObjectSystem::CheckCollision(id1, id2)`. -/
def CheckCollision (self : GameObjectSystem) (id1 id2 : String) : Bool :=
  match self.GetObject id1, self.GetObject id2 with
  | some obj1, some obj2 => obj1.CheckCollisionObject obj2
  | _, _ => false

/-- The snapshot `ids` that `CheckAllCollisions` fills by iterating the map. -/
def ids (self : GameObjectSystem) : List String :=
  self.objects.map Prod.fst

/-- The member `GameObjectSystem::CheckAllCollisions`.  The callback acts on the
caller's state `σ` and leaves the registry alone; `s` is that state before the
sweep, the result is the state after the last call.
`for i in [0, size)`, `for j in [i + 1, size)`. -/
def CheckAllCollisions {σ : Type} (self : GameObjectSystem)
    (callback : String → String → σ → σ) (s : σ) : σ :=
  let ids := self.ids
  (List.range ids.length).foldl
    (fun s i =>
      ((List.range ids.length).drop (i + 1)).foldl
        (fun s j =>
          if self.CheckCollision (ids.getD i "") (ids.getD j "") then
            callback (ids.getD i "") (ids.getD j "") s
          else s)
        s)
    s

/-- The calls a sweep makes, recorded in order: the callback appends its two
arguments to a log. -/
def collisionCalls (self : GameObjectSystem) : List (String × String) :=
  self.CheckAllCollisions (fun id1 id2 log => log ++ [(id1, id2)]) []

/-- Calling `SetVisible(isVisible)` on the object registered under `id` (the
registry holds pointers, so the change is seen through the registry). -/
def setVisibleOf (self : GameObjectSystem) (id : String) (isVisible : Bool) :
    GameObjectSystem where
  objects := self.objects.map
    (fun entry => if entry.1 = id then (entry.1, entry.2.SetVisible isVisible) else entry)
  sorted := by
    have h : (self.objects.map
        (fun entry => if entry.1 = id then (entry.1, entry.2.SetVisible isVisible) else entry)).map
        Prod.fst = self.objects.map Prod.fst := by
      rw [List.map_map]
      apply List.map_congr_left
      intro entry _
      by_cases hk : entry.1 = id <;> simp [hk]
    rw [h]
    exact self.sorted

end GameObjectSystem

/-! ## ImageObject -/

/-- The source's `class ImageObject : public GameObject`. -/
structure ImageObject extends GameObject where
  texture : Texture2D
  scale : ℚ
  tint : Color
  origin : Vector2
  deriving DecidableEq, Repr

namespace ImageObject

/-- The constructor `ImageObject(texturePath, objId)`.  `loaded` is what
`LoadTexture` returned for the path, `fallback` what `LoadTextureFromImage`
returns for the 64x64 placeholder image. -/
def new (loaded fallback : Texture2D) (objId : String) : ImageObject :=
  let texture := if loaded.id = 0 then fallback else loaded
  let base := GameObject.new objId
  let base :=
    if texture.id ≠ 0 then
      base.AddCollisionComponent
        (CollisionComponent.mk4 ⟨0, 0, (texture.width : ℚ), (texture.height : ℚ)⟩ GREEN true
          "texture_bounds")
    else base
  { toGameObject := base, texture := texture, scale := 1, tint := WHITE, origin := ⟨0, 0⟩ }

/-- The private member `ImageObject::UpdateCollisionComponents`. -/
def UpdateCollisionComponents (self : ImageObject) : ImageObject :=
  { self with
    collisionComponents := self.collisionComponents.map fun collision =>
      if collision.name = "texture_bounds" ∧ self.texture.id ≠ 0 then
        { collision with
          rect := { collision.rect with
            width := (self.texture.width : ℚ) * self.scale
            height := (self.texture.height : ℚ) * self.scale } }
      else collision }

/-- The member `ImageObject::SetScale`. -/
def SetScale (self : ImageObject) (newScale : ℚ) : ImageObject :=
  UpdateCollisionComponents { self with scale := newScale }

/-- The member `ImageObject::SetTexture`. -/
def SetTexture (self : ImageObject) (newTexture : Texture2D) : ImageObject :=
  UpdateCollisionComponents { self with texture := newTexture }

/-- The override `ImageObject::SetPosition`. -/
def SetPosition (self : ImageObject) (newPos : Vector2) : ImageObject :=
  UpdateCollisionComponents { self with position := newPos }

/-- The override `ImageObject::GetBounds`. -/
def GetBounds (self : ImageObject) : Rectangle :=
  if self.texture.id = 0 then ⟨self.position.x, self.position.y, 0, 0⟩
  else
    ⟨self.position.x - self.origin.x * self.scale,
     self.position.y - self.origin.y * self.scale,
     (self.texture.width : ℚ) * self.scale,
     (self.texture.height : ℚ) * self.scale⟩

end ImageObject

/-! ## Character -/

/-- The eight raylib key codes `Character::HandleInput` polls. -/
inductive KeyboardKey where
  | KEY_RIGHT
  | KEY_D
  | KEY_LEFT
  | KEY_A
  | KEY_UP
  | KEY_W
  | KEY_DOWN
  | KEY_S
  deriving DecidableEq, Repr

/-- The source's `class Character : public GameObject`. -/
structure Character extends GameObject where
  characterSheet : Texture2D
  speed : ℚ
  oldPosition : Vector2
  currentDirection : Direction
  currentState : AnimationState
  currentFrame : Int
  animationTimer : ℚ
  animationSpeed : ℚ
  framesPerDirection : Int
  spriteWidth : Int
  spriteHeight : Int
  downRow : Int
  leftRow : Int
  rightRow : Int
  upRow : Int
  deriving DecidableEq, Repr

namespace Character

/-- The constructor `Character(objId)`. -/
def new (objId : String) : Character :=
  { toGameObject := GameObject.new objId
    characterSheet := ⟨0, 0, 0⟩
    speed := 200
    oldPosition := ⟨0, 0⟩
    currentDirection := Direction.DOWN
    currentState := AnimationState.IDLE
    currentFrame := 0
    animationTimer := 0
    animationSpeed := 1 / 10
    framesPerDirection := 4
    spriteWidth := 0
    spriteHeight := 0
    downRow := 0
    leftRow := 1
    rightRow := 2
    upRow := 3 }

/-- The member `Character::LoadCharacterSheet`, with its `bool` result.
`loaded` is what `LoadTexture` returned, `fallback` the placeholder texture. -/
def LoadCharacterSheet (self : Character) (loaded fallback : Texture2D) : Character × Bool :=
  let self := { self with characterSheet := loaded }
  if self.characterSheet.id = 0 then
    ({ self with characterSheet := fallback }, false)
  else
    let self := { self with
      spriteWidth := Int.tdiv self.characterSheet.width 4
      spriteHeight := Int.tdiv self.characterSheet.height 4 }
    let collisionWidth : ℚ := (self.spriteWidth : ℚ) * (1 / 2)
    let collisionHeight : ℚ := (self.spriteHeight : ℚ) * (1 / 4)
    ({ self with
        collisionComponents := self.collisionComponents ++
          [CollisionComponent.mk4
            ⟨-collisionWidth / 2, (self.spriteHeight : ℚ) / 2 - collisionHeight,
              collisionWidth, collisionHeight⟩
            RED true "character_feet"] }, true)

/-- The member `Character::HandleInput`.  `IsKeyDown` is raylib's key state for
this frame and `GetFrameTime` the value raylib's `GetFrameTime()` returns
during it.  The three variables the four key tests assign (`movement`,
`currentDirection`, `isMoving`) are threaded through them in source order; the
members are stored at the end.  The arithmetic on `movement` and `position` is
float arithmetic, `movement.x * speed * GetFrameTime()` being two float
products from the left. -/
def HandleInput (self : Character) (IsKeyDown : KeyboardKey → Bool) (GetFrameTime : ℚ) :
    Character :=
  let oldPosition := self.position
  let movement : Vector2 := ⟨0, 0⟩
  let currentDirection := self.currentDirection
  let isMoving := false
  let (movement, currentDirection, isMoving) :=
    if IsKeyDown KeyboardKey.KEY_RIGHT || IsKeyDown KeyboardKey.KEY_D then
      (({ movement with x := floatAdd movement.x 1 } : Vector2), Direction.RIGHT, true)
    else (movement, currentDirection, isMoving)
  let (movement, currentDirection, isMoving) :=
    if IsKeyDown KeyboardKey.KEY_LEFT || IsKeyDown KeyboardKey.KEY_A then
      (({ movement with x := floatSub movement.x 1 } : Vector2), Direction.LEFT, true)
    else (movement, currentDirection, isMoving)
  let (movement, currentDirection, isMoving) :=
    if IsKeyDown KeyboardKey.KEY_UP || IsKeyDown KeyboardKey.KEY_W then
      (({ movement with y := floatSub movement.y 1 } : Vector2), Direction.UP, true)
    else (movement, currentDirection, isMoving)
  let (movement, currentDirection, isMoving) :=
    if IsKeyDown KeyboardKey.KEY_DOWN || IsKeyDown KeyboardKey.KEY_S then
      (({ movement with y := floatAdd movement.y 1 } : Vector2), Direction.DOWN, true)
    else (movement, currentDirection, isMoving)
  let currentState := if isMoving then AnimationState.WALKING else AnimationState.IDLE
  let position : Vector2 :=
    if isMoving then
      let movement : Vector2 :=
        if movement.x ≠ 0 ∧ movement.y ≠ 0 then
          ⟨floatMul movement.x float0_7071, floatMul movement.y float0_7071⟩
        else movement
      ⟨floatAdd self.position.x (floatMul (floatMul movement.x self.speed) GetFrameTime),
       floatAdd self.position.y (floatMul (floatMul movement.y self.speed) GetFrameTime)⟩
    else self.position
  { self with
    oldPosition := oldPosition
    currentDirection := currentDirection
    currentState := currentState
    position := position }

/-- The private member `Character::UpdateAnimation`. -/
def UpdateAnimation (self : Character) (deltaTime : ℚ) : Character :=
  if self.currentState = AnimationState.WALKING then
    let self := { self with animationTimer := self.animationTimer + deltaTime }
    if self.animationTimer ≥ self.animationSpeed then
      { self with
        animationTimer := 0
        currentFrame := Int.tmod (self.currentFrame + 1) self.framesPerDirection }
    else self
  else
    { self with currentFrame := 0, animationTimer := 0 }

/-- The override `Character::Update`. -/
def Update (self : Character) (deltaTime : ℚ) : Character :=
  self.UpdateAnimation deltaTime

/-- The member `Character::ResolveCollision`. -/
def ResolveCollision (self : Character) : Character :=
  { self with position := self.oldPosition }

/-- The override `Character::GetBounds`. -/
def GetBounds (self : Character) : Rectangle :=
  ⟨self.position.x - (self.spriteWidth : ℚ) / 2,
   self.position.y - (self.spriteHeight : ℚ) / 2,
   (self.spriteWidth : ℚ),
   (self.spriteHeight : ℚ)⟩

/-- The member `Character::CheckWorldBounds`: four `if`s in sequence, each on
the position the previous ones left. -/
def CheckWorldBounds (self : Character) (worldSize : Vector2) : Character :=
  let bounds := self.GetBounds
  let self :=
    if self.position.x < bounds.width / 2 then
      { self with position := { self.position with x := bounds.width / 2 } }
    else self
  let self :=
    if self.position.y < bounds.height / 2 then
      { self with position := { self.position with y := bounds.height / 2 } }
    else self
  let self :=
    if self.position.x > worldSize.x - bounds.width / 2 then
      { self with position := { self.position with x := worldSize.x - bounds.width / 2 } }
    else self
  let self :=
    if self.position.y > worldSize.y - bounds.height / 2 then
      { self with position := { self.position with y := worldSize.y - bounds.height / 2 } }
    else self
  self

/-- The member `Character::SetPosition` (inherited from `GameObject`). -/
def SetPosition (self : Character) (newPos : Vector2) : Character :=
  { self with position := newPos }

/-- The member `Character::SetSpeed`. -/
def SetSpeed (self : Character) (newSpeed : ℚ) : Character :=
  { self with speed := newSpeed }

/-- The member `Character::SetAnimationSpeed`. -/
def SetAnimationSpeed (self : Character) (newSpeed : ℚ) : Character :=
  { self with animationSpeed := newSpeed }

/-- The member `Character::SetSpriteLayout`. -/
def SetSpriteLayout (self : Character) (down left right up : Int) : Character :=
  { self with downRow := down, leftRow := left, rightRow := right, upRow := up }

end Character

/-! ## Overlap of extents (the words of the specification) -/

/-- Length of the common part of the x extents `[x, x + width]` of two
rectangles (negative when they are apart). -/
def overlapX (a b : Rectangle) : ℚ :=
  min (a.x + a.width) (b.x + b.width) - max a.x b.x

/-- Length of the common part of the y extents `[y, y + height]` of two
rectangles (negative when they are apart). -/
def overlapY (a b : Rectangle) : ℚ :=
  min (a.y + a.height) (b.y + b.height) - max a.y b.y

/-- Two rectangles intersect with positive overlap on both axes. -/
def PositiveOverlap (a b : Rectangle) : Prop :=
  0 < overlapX a b ∧ 0 < overlapY a b

instance (a b : Rectangle) : Decidable (PositiveOverlap a b) := by
  unfold PositiveOverlap; infer_instance

/-! ## Held directions (the words of the specification) -/

/-- Right is held: either of its two keys is down. -/
def heldRight (IsKeyDown : KeyboardKey → Bool) : Bool :=
  IsKeyDown KeyboardKey.KEY_RIGHT || IsKeyDown KeyboardKey.KEY_D

/-- Left is held: either of its two keys is down. -/
def heldLeft (IsKeyDown : KeyboardKey → Bool) : Bool :=
  IsKeyDown KeyboardKey.KEY_LEFT || IsKeyDown KeyboardKey.KEY_A

/-- Up is held: either of its two keys is down. -/
def heldUp (IsKeyDown : KeyboardKey → Bool) : Bool :=
  IsKeyDown KeyboardKey.KEY_UP || IsKeyDown KeyboardKey.KEY_W

/-- Down is held: either of its two keys is down. -/
def heldDown (IsKeyDown : KeyboardKey → Bool) : Bool :=
  IsKeyDown KeyboardKey.KEY_DOWN || IsKeyDown KeyboardKey.KEY_S

/-- No key at all is down. -/
def noKeys : KeyboardKey → Bool := fun _ => false

/-- The player of `main` after `LoadCharacterSheet` succeeded on a 256 x 256
sheet (64 x 64 sprites). -/
def samplePlayer : Character :=
  ((Character.new "player").LoadCharacterSheet ⟨1, 256, 256⟩ ⟨2, 64, 64⟩).1

/-- The sample player while WALKING, at frame 0 with timer 0. -/
def walkingPlayer : Character :=
  { samplePlayer with currentState := AnimationState.WALKING }

/-- The sample player in the middle of a walk cycle: frame 2, timer 0.07. -/
def midWalkPlayer : Character :=
  { samplePlayer with
    currentState := AnimationState.WALKING
    currentFrame := 2
    animationTimer := 7 / 100 }

/-- Right and down held (keys D and S). -/
def keysRightDown : KeyboardKey → Bool
  | KeyboardKey.KEY_D => true
  | KeyboardKey.KEY_S => true
  | _ => false

/-- The sample player at the start position of `main`, (400, 300), with the
speed `main` sets, 150. -/
def diagonalStart : Character :=
  (samplePlayer.SetPosition ⟨400, 300⟩).SetSpeed 150

/-- The sample player with speed 150, far out at x = 100000000. -/
def farStart : Character :=
  (samplePlayer.SetPosition ⟨100000000, 300⟩).SetSpeed 150

/-- The sample player placed at the left edge, (0, 300). -/
def edgePlayer : Character :=
  samplePlayer.SetPosition ⟨0, 300⟩

/-- The rock of `main`, as constructed from a 64 x 64 texture. -/
def sampleRock : ImageObject :=
  ImageObject.new ⟨3, 64, 64⟩ ⟨2, 64, 64⟩ "rock1"

/-- A 10 x 10 solid box at (x, y). -/
def sampleBox (id : String) (x y : ℚ) : GameObject :=
  { id := id, position := ⟨x, y⟩, visible := true,
    collisionComponents := [CollisionComponent.mk4 ⟨0, 0, 10, 10⟩ RED true "box"] }

/-- Four boxes: a and b overlap, b and d overlap, c is far away. -/
def sampleRegistry : GameObjectSystem :=
  ⟨[("a", sampleBox "a" 0 0), ("b", sampleBox "b" 5 5), ("c", sampleBox "c" 100 100),
    ("d", sampleBox "d" 12 12)], by
    simp only [List.map, List.pairwise_cons, String.lt_iff_toList_lt]; decide⟩

/-! ## The pairwise sweep (the words of the specification) -/

/-- All pairs of positions `(i, j)` with `i < j < n`, by ascending `i`, then
ascending `j`. -/
def indexPairs (n : Nat) : List (Nat × Nat) :=
  (List.range n).flatMap fun i =>
    ((List.range n).filter fun j => decide (i < j)).map fun j => (i, j)

/-- The pairs of positions of the id snapshot whose objects collide, in the
order of `indexPairs`. -/
def GameObjectSystem.collidingIndexPairs (sys : GameObjectSystem) : List (Nat × Nat) :=
  (indexPairs sys.ids.length).filter fun p =>
    sys.CheckCollision (sys.ids.getD p.1 "") (sys.ids.getD p.2 "")

/-- Two objects are solid-overlapping: some solid component of the first and
some solid component of the second, both in world coordinates, pass the
rectangle test. -/
def SolidOverlap (a b : GameObject) : Prop :=
  ∃ c1 ∈ a.collisionComponents, c1.isSolid = true ∧
    ∃ c2 ∈ b.collisionComponents, c2.isSolid = true ∧
      CheckCollisionRecs (GameObject.worldRect a.position c1)
        (GameObject.worldRect b.position c2) = true

instance (a b : GameObject) : Decidable (SolidOverlap a b) := by
  unfold SolidOverlap; infer_instance

/-- The object at position `i` of the registry's iteration order. -/
def GameObjectSystem.objectAt (sys : GameObjectSystem) (i : Nat) : GameObject :=
  (sys.objects.map Prod.snd).getD i (GameObject.new "")

/-- The number K of solid-overlapping unordered pairs of registered objects:
each pair is counted once, at its positions `i < j` in the iteration order. -/
def GameObjectSystem.overlappingPairCount (sys : GameObjectSystem) : Nat :=
  ((Finset.range sys.objects.length ×ˢ Finset.range sys.objects.length).filter fun p =>
    p.1 < p.2 ∧ SolidOverlap (sys.objectAt p.1) (sys.objectAt p.2)).card

/-- Order of enumeration of position pairs: ascending first component, then
ascending second component. -/
def pairBefore (p q : Nat × Nat) : Prop :=
  p.1 < q.1 ∨ (p.1 = q.1 ∧ p.2 < q.2)

/-! ## Reachable Character states (the words of the specification) -/

/-- The Character states that construction followed by any sequence of the
public operations can produce. -/
inductive Reachable : Character → Prop where
  | construct (objId : String) : Reachable (Character.new objId)
  | handleInput {c : Character} (keys : KeyboardKey → Bool) (frameTime : ℚ) :
      Reachable c → Reachable (c.HandleInput keys frameTime)
  | update {c : Character} (deltaTime : ℚ) : Reachable c → Reachable (c.Update deltaTime)
  | resolveCollision {c : Character} : Reachable c → Reachable c.ResolveCollision
  | checkWorldBounds {c : Character} (worldSize : Vector2) :
      Reachable c → Reachable (c.CheckWorldBounds worldSize)
  | setPosition {c : Character} (newPos : Vector2) :
      Reachable c → Reachable (c.SetPosition newPos)
  | setSpeed {c : Character} (newSpeed : ℚ) : Reachable c → Reachable (c.SetSpeed newSpeed)
  | setAnimationSpeed {c : Character} (newSpeed : ℚ) :
      Reachable c → Reachable (c.SetAnimationSpeed newSpeed)
  | setSpriteLayout {c : Character} (down left right up : Int) :
      Reachable c → Reachable (c.SetSpriteLayout down left right up)
  | loadCharacterSheet {c : Character} (loaded fallback : Texture2D) :
      Reachable c → Reachable (c.LoadCharacterSheet loaded fallback).1

/-- A trigger zone: one non-solid 10 x 10 component at (x, y). -/
def sampleTrigger (id : String) (x y : ℚ) : GameObject :=
  { id := id, position := ⟨x, y⟩, visible := true,
    collisionComponents := [CollisionComponent.mk4 ⟨0, 0, 10, 10⟩ YELLOW false "zone"] }

/-- A trigger zone at (0, 0) and a solid box at (5, 5), overlapping in a
5 x 5 square. -/
def triggerRegistry : GameObjectSystem :=
  ⟨[("a", sampleTrigger "a" 0 0), ("b", sampleBox "b" 5 5)], by
    simp only [List.map, List.pairwise_cons, String.lt_iff_toList_lt]; decide⟩

/-! ## The scene and the collision callback of `main` (`src/main_4.cpp`) -/

/-- Whether the characters of `pat` stand at the head of the text. -/
def startsWithChars : List Char → List Char → Bool
  | [], _ => true
  | _ :: _, [] => false
  | p :: ps, t :: ts => p == t && startsWithChars ps ts

/-- Position of the first occurrence of `pat` at or after `pos`. -/
def findFrom (pat : List Char) : List Char → Nat → Option Nat
  | [], pos => if pat.isEmpty then some pos else none
  | t :: ts, pos =>
    if startsWithChars pat (t :: ts) then some pos else findFrom pat ts (pos + 1)

/-- The call `s.find(pat)` of `std::string`; `none` is `std::string::npos`. -/
def stdFind (s pat : String) : Option Nat :=
  findFrom pat.toList s.toList 0

/-- The inherited `AddCollisionComponent(rect, color, isSolid, name)` called on
an ImageObject. -/
def ImageObject.AddCollisionComponent (self : ImageObject) (rect : Rectangle) (color : Color)
    (isSolid : Bool) (name : String) : ImageObject :=
  { self with
    collisionComponents :=
      self.collisionComponents ++ [CollisionComponent.mk4 rect color isSolid name] }

/-- The locals of `main` that the collision callback reads or writes: the four
objects the registry points to, and the game status. -/
structure GameState where
  player : Character
  obstacle1 : ImageObject
  obstacle2 : ImageObject
  coin : ImageObject
  collisionOccurred : Bool
  collisionInfo : String
  score : Int
  deriving DecidableEq, Repr

namespace GameState

/-- The registry `gameObjects` of `main`: the four `AddObject` calls leave the
map with the keys "coin1", "player", "rock1", "tree1" in iteration order, each
pointing to the object held in the state. -/
def gameObjects (s : GameState) : GameObjectSystem :=
  ⟨[("coin1", s.coin.toGameObject), ("player", s.player.toGameObject),
    ("rock1", s.obstacle1.toGameObject), ("tree1", s.obstacle2.toGameObject)], by
    simp only [List.map, List.pairwise_cons, String.lt_iff_toList_lt]; decide⟩

/-- The call `gameObjects.GetObject(id)->SetVisible(isVisible)`: the object the
registry holds under `id` is the one in the state.  An id that is not
registered gives a null pointer in the source; the callback only passes
registered ids. -/
def setVisible (s : GameState) (id : String) (isVisible : Bool) : GameState :=
  if id = "coin1" then { s with coin := { s.coin with visible := isVisible } }
  else if id = "player" then { s with player := { s.player with visible := isVisible } }
  else if id = "rock1" then { s with obstacle1 := { s.obstacle1 with visible := isVisible } }
  else if id = "tree1" then { s with obstacle2 := { s.obstacle2 with visible := isVisible } }
  else s

end GameState

/-- The scene `main` builds before its loop.  The arguments are the textures
raylib loads for the four paths and the two placeholder textures. -/
def mainScene (sheet sheetFallback rockTex treeTex coinTex imageFallback : Texture2D) :
    GameState :=
  let player := ((Character.new "player").LoadCharacterSheet sheet sheetFallback).1
  let player := player.SetPosition ⟨400, 300⟩
  let player := player.SetSpeed 150
  let player := player.SetAnimationSpeed (15 / 100)
  let player := player.SetSpriteLayout 0 1 2 3
  let obstacle1 := ImageObject.new rockTex imageFallback "rock1"
  let obstacle1 := obstacle1.SetPosition ⟨200, 200⟩
  let obstacle1 := obstacle1.SetScale (8 / 10)
  let obstacle1 := obstacle1.AddCollisionComponent ⟨10, 10, 40, 40⟩ RED true "rock_collision"
  let obstacle2 := ImageObject.new treeTex imageFallback "tree1"
  let obstacle2 := obstacle2.SetPosition ⟨600, 400⟩
  let obstacle2 := obstacle2.SetScale (12 / 10)
  let obstacle2 := obstacle2.AddCollisionComponent ⟨15, 60, 30, 20⟩ BLUE true "tree_trunk"
  let coin := ImageObject.new coinTex imageFallback "coin1"
  let coin := coin.SetPosition ⟨300, 500⟩
  let coin := coin.SetScale (5 / 10)
  let coin := coin.AddCollisionComponent ⟨5, 5, 20, 20⟩ YELLOW false "coin_area"
  { player := player, obstacle1 := obstacle1, obstacle2 := obstacle2, coin := coin,
    collisionOccurred := false, collisionInfo := "", score := 0 }

/-- The lambda `main` passes to `CheckAllCollisions`. -/
def mainCallback (id1 id2 : String) (s : GameState) : GameState :=
  let s := { s with
    collisionOccurred := true
    collisionInfo := "碰撞: " ++ id1 ++ " ↔ " ++ id2 }
  if id1 = "player" ∨ id2 = "id2" then
    let s := { s with player := s.player.ResolveCollision }
    let s :=
      if (stdFind id1 "coin").isSome then
        let s := s.setVisible id1 false
        { s with score := s.score + 1, collisionInfo := s.collisionInfo ++ " (收集!)" }
      else s
    let s :=
      if (stdFind id2 "coin").isSome then
        let s := s.setVisible id2 false
        { s with score := s.score + 1, collisionInfo := s.collisionInfo ++ " (收集!)" }
      else s
    s
  else s

/-- The member `GameObjectSystem::CheckAllCollisions` for a callback that
changes the registered objects through the pointers the registry holds:
`registry s` is the registry as it stands in state `s`.  The id snapshot is
taken once, before the loops; each `CheckCollision` reads the objects as the
calls made so far have left them. -/
def CheckAllCollisionsMut {σ : Type} (registry : σ → GameObjectSystem)
    (callback : String → String → σ → σ) (s : σ) : σ :=
  let ids := (registry s).ids
  (List.range ids.length).foldl
    (fun s i =>
      ((List.range ids.length).drop (i + 1)).foldl
        (fun s j =>
          if (registry s).CheckCollision (ids.getD i "") (ids.getD j "") then
            callback (ids.getD i "") (ids.getD j "") s
          else s)
        s)
    s

/-- The registry of `main` seen from a state paired with a log of calls. -/
def loggedRegistry (st : GameState × List (String × String)) : GameObjectSystem :=
  st.1.gameObjects

/-- The callback of `main`, also appending its two arguments to the log. -/
def loggedCallback (id1 id2 : String) (st : GameState × List (String × String)) :
    GameState × List (String × String) :=
  (mainCallback id1 id2 st.1, st.2 ++ [(id1, id2)])

/-- The sweep of `main` with the calls it makes recorded in order, next to the
state the callback leaves. -/
def mainSweep (s : GameState) : GameState × List (String × String) :=
  CheckAllCollisionsMut loggedRegistry loggedCallback (s, [])

/-- One pass of the loop of `main`, from `HandleInput` to the collision status
line (camera, drawing and the F1 / R keys follow). -/
def mainFrame (IsKeyDown : KeyboardKey → Bool) (GetFrameTime : ℚ) (s : GameState) : GameState :=
  let deltaTime := GetFrameTime
  let s := { s with player := s.player.HandleInput IsKeyDown GetFrameTime }
  let s := { s with player := s.player.Update deltaTime }
  let s := { s with player := s.player.CheckWorldBounds ⟨800, 600⟩ }
  let s := { s with collisionOccurred := false }
  let s := CheckAllCollisionsMut GameState.gameObjects mainCallback s
  if s.collisionOccurred then s else { s with collisionInfo := "无碰撞" }

/-- Only the S key is down. -/
def keysDown : KeyboardKey → Bool
  | KeyboardKey.KEY_S => true
  | _ => false

/-- Only the D key is down. -/
def keysRight : KeyboardKey → Bool
  | KeyboardKey.KEY_D => true
  | _ => false

/-- The scene of `main` with a 256 x 256 character sheet and 64 x 64 images. -/
def sampleScene : GameState :=
  mainScene ⟨1, 256, 256⟩ ⟨2, 64, 64⟩ ⟨3, 64, 64⟩ ⟨4, 64, 64⟩ ⟨5, 64, 64⟩ ⟨6, 64, 64⟩

/-- The sample scene after the player has walked to (310, 465), just above the
coin. -/
def sceneAboveCoin : GameState :=
  { sampleScene with player := sampleScene.player.SetPosition ⟨310, 465⟩ }

/-- The sample scene after the player has walked to (180, 200), just left of
the rock. -/
def sceneLeftOfRock : GameState :=
  { sampleScene with player := sampleScene.player.SetPosition ⟨180, 200⟩ }

/-- One turn of the inner loop body of the sweep on the pair `(id1, id2)`: test
the two objects as they stand, call back on a hit. -/
def sweepStep {σ : Type} (registry : σ → GameObjectSystem)
    (callback : String → String → σ → σ) (id1 id2 : String) (s : σ) : σ :=
  if (registry s).CheckCollision id1 id2 then callback id1 id2 s else s

/-- The state of `sceneAboveCoin` when the sweep starts, in a frame of one
fifteenth of a second with S down: the player has moved 10 down. -/
def movedOntoCoin : GameState :=
  { sceneAboveCoin with
    player := ((sceneAboveCoin.player.HandleInput keysDown (1 / 15)).Update (1 / 15)).CheckWorldBounds
      ⟨800, 600⟩
    collisionOccurred := false }

/-- The state of `sceneLeftOfRock` when the sweep starts, in a frame of one
fifteenth of a second with D down: the player has moved 10 right. -/
def movedOntoRock : GameState :=
  { sceneLeftOfRock with
    player := ((sceneLeftOfRock.player.HandleInput keysRight (1 / 15)).Update (1 / 15)).CheckWorldBounds
      ⟨800, 600⟩
    collisionOccurred := false }

/-- What the sweep leaves of `movedOntoCoin`: only the status line has changed. -/
def coinPairReported : GameState :=
  { movedOntoCoin with collisionOccurred := true, collisionInfo := "碰撞: coin1 ↔ player" }

/-- What the sweep leaves of `movedOntoRock`: the status line is written and
the player is back at its old position. -/
def rockPairReported : GameState :=
  { movedOntoRock with
    collisionOccurred := true
    collisionInfo := "碰撞: player ↔ rock1"
    player := movedOntoRock.player.ResolveCollision }

/-! ## Shared lemmas -/

theorem roundHalfEven_of_abs_lt (m : ℚ) (n : ℤ) (h : |m - n| < 1 / 2) : roundHalfEven m = n := by
  rw [abs_lt] at h
  obtain ⟨h1, h2⟩ := h
  unfold roundHalfEven
  by_cases hmn : (n : ℚ) ≤ m
  · have hf : ⌊m⌋ = n := by
      rw [Int.floor_eq_iff]
      constructor
      · exact hmn
      · linarith
    rw [hf, if_pos (by linarith)]
  · have hf : ⌊m⌋ = n - 1 := by
      rw [Int.floor_eq_iff]
      push_cast
      constructor <;> linarith
    rw [hf]
    push_cast
    rw [if_neg (by linarith), if_pos (by linarith)]
    ring

theorem floatExponent_eq (q : ℚ) (e : ℤ) (h1 : (2 : ℚ) ^ e ≤ |q|) (h2 : |q| < (2 : ℚ) ^ (e + 1))
    (he : -126 ≤ e) : floatExponent q = e := by
  have hpos : 0 < |q| := lt_of_lt_of_le (zpow_pos (by norm_num) e) h1
  have hlog : Int.log 2 |q| = e := by
    apply le_antisymm
    · have := (Int.lt_zpow_iff_log_lt (b := 2) (by norm_num) hpos).mp (by exact_mod_cast h2)
      omega
    · exact (Int.zpow_le_iff_le_log (b := 2) (by norm_num) hpos).mp (by exact_mod_cast h1)
  unfold floatExponent
  rw [hlog]
  exact max_eq_left he

theorem roundToFloat_eval (q : ℚ) (e n : ℤ) (h1 : (2 : ℚ) ^ e ≤ |q|)
    (h2 : |q| < (2 : ℚ) ^ (e + 1)) (he : -126 ≤ e)
    (h3 : |q / 2 ^ (e - 23) - n| < 1 / 2) : roundToFloat q = n * 2 ^ (e - 23) := by
  have hq : q ≠ 0 := by
    intro h0
    rw [h0, abs_zero] at h1
    exact absurd h1 (not_le.mpr (zpow_pos (by norm_num) e))
  unfold roundToFloat
  rw [if_neg hq, floatExponent_eq q e h1 h2 he, roundHalfEven_of_abs_lt _ n h3]

theorem roundToFloat_of_pos (q : ℚ) (e n : ℤ) (h1 : (2 : ℚ) ^ e ≤ q)
    (h2 : q < (2 : ℚ) ^ (e + 1)) (he : -126 ≤ e)
    (h3 : (n : ℚ) - 1 / 2 < q / 2 ^ (e - 23)) (h4 : q / 2 ^ (e - 23) < n + 1 / 2) :
    roundToFloat q = n * 2 ^ (e - 23) := by
  have hpos : 0 < q := lt_of_lt_of_le (zpow_pos (by norm_num) e) h1
  apply roundToFloat_eval q e n
  · rw [abs_of_pos hpos]; exact h1
  · rw [abs_of_pos hpos]; exact h2
  · exact he
  · rw [abs_lt]; constructor <;> linarith

theorem roundToFloat_of_neg (q : ℚ) (e n : ℤ) (h1 : (2 : ℚ) ^ e ≤ -q)
    (h2 : -q < (2 : ℚ) ^ (e + 1)) (he : -126 ≤ e)
    (h3 : (n : ℚ) - 1 / 2 < q / 2 ^ (e - 23)) (h4 : q / 2 ^ (e - 23) < n + 1 / 2) :
    roundToFloat q = n * 2 ^ (e - 23) := by
  have hneg : q < 0 := by
    have := lt_of_lt_of_le (zpow_pos (by norm_num : (0 : ℚ) < 2) e) h1
    linarith
  apply roundToFloat_eval q e n
  · rw [abs_of_neg hneg]; exact h1
  · rw [abs_of_neg hneg]; exact h2
  · exact he
  · rw [abs_lt]; constructor <;> linarith

theorem roundToFloat_zero : roundToFloat 0 = 0 := by
  simp [roundToFloat]

theorem roundToFloat_one : roundToFloat 1 = 1 := by
  rw [roundToFloat_of_pos 1 0 8388608 (by norm_num) (by norm_num) (by norm_num) (by norm_num)
    (by norm_num)]
  norm_num

theorem roundToFloat_neg_one : roundToFloat (-1) = -1 := by
  rw [roundToFloat_of_neg (-1) 0 (-8388608) (by norm_num) (by norm_num) (by norm_num)
    (by norm_num) (by norm_num)]
  norm_num

theorem float0_7071_eq : float0_7071 = 11863169 / 16777216 := by
  unfold float0_7071
  rw [roundToFloat_of_pos (7071 / 10000) (-1) 11863169 (by norm_num) (by norm_num) (by norm_num)
    (by norm_num) (by norm_num)]
  norm_num

theorem roundToFloat_float0_7071 : roundToFloat float0_7071 = float0_7071 := by
  rw [float0_7071_eq,
    roundToFloat_of_pos (11863169 / 16777216) (-1) 11863169 (by norm_num) (by norm_num)
      (by norm_num) (by norm_num) (by norm_num)]
  norm_num

theorem roundToFloat_neg_float0_7071 : roundToFloat (-float0_7071) = -float0_7071 := by
  rw [float0_7071_eq,
    roundToFloat_of_neg (-(11863169 / 16777216)) (-1) (-11863169) (by norm_num) (by norm_num)
      (by norm_num) (by norm_num) (by norm_num)]
  norm_num

theorem CheckCollisionRecs_iff (a b : Rectangle) :
    CheckCollisionRecs a b = true ↔
      (a.x < b.x + b.width ∧ b.x < a.x + a.width) ∧
      (a.y < b.y + b.height ∧ b.y < a.y + a.height) := by
  simp [CheckCollisionRecs]

theorem checkRectLoop_iff (position : Vector2) (other : Rectangle)
    (cs : List CollisionComponent) :
    GameObject.checkRectLoop position other cs = true ↔
      ∃ c ∈ cs, c.isSolid = true ∧
        CheckCollisionRecs (GameObject.worldRect position c) other = true := by
  induction cs with
  | nil => simp [GameObject.checkRectLoop]
  | cons c rest ih =>
    simp only [GameObject.checkRectLoop, List.mem_cons, exists_eq_or_imp]
    by_cases hs : c.isSolid = true
    · by_cases hc : CheckCollisionRecs (GameObject.worldRect position c) other = true
      · simp [hs, hc]
      · simp [hs, hc, ih]
    · simp [hs, ih]

theorem positiveOverlap_iff (a b : Rectangle) :
    PositiveOverlap a b ↔
      CheckCollisionRecs a b = true ∧ 0 < a.width ∧ 0 < a.height ∧ 0 < b.width ∧ 0 < b.height := by
  rw [CheckCollisionRecs_iff]
  unfold PositiveOverlap overlapX overlapY
  simp only [sub_pos, max_lt_iff, lt_min_iff]
  constructor
  · rintro ⟨⟨⟨h1, h2⟩, h3, h4⟩, ⟨h5, h6⟩, h7, h8⟩
    refine ⟨⟨⟨h3, h2⟩, h7, h6⟩, ?_, ?_, ?_, ?_⟩ <;> linarith
  · rintro ⟨⟨⟨h1, h2⟩, h3, h4⟩, h5, h6, h7, h8⟩
    refine ⟨⟨⟨?_, h2⟩, h1, ?_⟩, ⟨?_, h4⟩, h3, ?_⟩ <;> linarith

/-! ## C1: rectangle query -/

/-- C1 (counterexample): a default-constructed component (solid, zero width and
height) of an object at (1, 1) lies inside the query rectangle (0, 0, 2, 2);
`CheckCollision` returns true although the extents overlap in a single point,
so there is no positive overlap on either axis. -/
theorem C1_zero_size_component_collides :
    (∀ c ∈ [CollisionComponent.default], 0 ≤ c.rect.width ∧ 0 ≤ c.rect.height) ∧
    GameObject.CheckCollision
      { id := "a", position := ⟨1, 1⟩, visible := true,
        collisionComponents := [CollisionComponent.default] } ⟨0, 0, 2, 2⟩ = true ∧
    ¬ ∃ c ∈ [CollisionComponent.default], c.isSolid = true ∧
        PositiveOverlap (GameObject.worldRect ⟨1, 1⟩ c) ⟨0, 0, 2, 2⟩ := by
  refine ⟨by simp [CollisionComponent.default], ?_, ?_⟩
  · simp [GameObject.CheckCollision, GameObject.checkRectLoop, CollisionComponent.default,
      CheckCollisionRecs, GameObject.worldRect]
  · simp [PositiveOverlap, overlapX, overlapY, GameObject.worldRect,
      CollisionComponent.default]

/-- C1 (amended): `CheckCollision(rect)` is true exactly when some solid
component, translated by the position, passes the strict interval test against
`rect` on both axes; an object without solid component gives false; and when
the solid components and the query rectangle have positive width and height,
`CheckCollision(rect)` is true exactly when some solid component's world
rectangle overlaps `rect` with positive overlap on both axes (so rectangles
that only touch give false). -/
theorem C1_CheckCollision_rect (obj : GameObject) (rect : Rectangle) :
    (obj.CheckCollision rect = true ↔
      ∃ c ∈ obj.collisionComponents, c.isSolid = true ∧
        ((c.rect.x + obj.position.x < rect.x + rect.width ∧
            rect.x < c.rect.x + obj.position.x + c.rect.width) ∧
         (c.rect.y + obj.position.y < rect.y + rect.height ∧
            rect.y < c.rect.y + obj.position.y + c.rect.height))) ∧
    ((∀ c ∈ obj.collisionComponents, c.isSolid = false) → obj.CheckCollision rect = false) ∧
    ((∀ c ∈ obj.collisionComponents, c.isSolid = true → 0 < c.rect.width ∧ 0 < c.rect.height) →
      0 < rect.width → 0 < rect.height →
      (obj.CheckCollision rect = true ↔
        ∃ c ∈ obj.collisionComponents, c.isSolid = true ∧
          PositiveOverlap (GameObject.worldRect obj.position c) rect)) := by
  refine ⟨?_, ?_, ?_⟩
  · unfold GameObject.CheckCollision
    rw [checkRectLoop_iff]
    simp only [CheckCollisionRecs_iff, GameObject.worldRect]
  · intro hns
    cases hv : obj.CheckCollision rect with
    | false => rfl
    | true =>
      unfold GameObject.CheckCollision at hv
      rw [checkRectLoop_iff] at hv
      obtain ⟨c, hc, hs, -⟩ := hv
      rw [hns c hc] at hs
      cases hs
  · intro hpos hw hh
    unfold GameObject.CheckCollision
    rw [checkRectLoop_iff]
    constructor
    · rintro ⟨c, hc, hs, ht⟩
      refine ⟨c, hc, hs, (positiveOverlap_iff _ _).mpr ⟨ht, ?_, ?_, hw, hh⟩⟩
      · exact (hpos c hc hs).1
      · exact (hpos c hc hs).2
    · rintro ⟨c, hc, hs, hp⟩
      exact ⟨c, hc, hs, ((positiveOverlap_iff _ _).mp hp).1⟩

/-- C1 (witness): a 10 x 10 solid component of an object at (5, 5) against the
query rectangle (0, 0, 10, 10). -/
theorem C1_CheckCollision_rect_witness :
    (∀ c ∈ [CollisionComponent.mk4 ⟨0, 0, 10, 10⟩ RED true "box"],
      c.isSolid = true → 0 < c.rect.width ∧ 0 < c.rect.height) ∧
    (0 : ℚ) < 10 ∧
    (GameObject.CheckCollision
        { id := "a", position := ⟨5, 5⟩, visible := true,
          collisionComponents := [CollisionComponent.mk4 ⟨0, 0, 10, 10⟩ RED true "box"] }
        ⟨0, 0, 10, 10⟩ = true ↔
      ∃ c ∈ [CollisionComponent.mk4 ⟨0, 0, 10, 10⟩ RED true "box"], c.isSolid = true ∧
        PositiveOverlap (GameObject.worldRect ⟨5, 5⟩ c) ⟨0, 0, 10, 10⟩) :=
  ⟨by simp [CollisionComponent.mk4], by norm_num,
    (C1_CheckCollision_rect
      { id := "a", position := ⟨5, 5⟩, visible := true,
        collisionComponents := [CollisionComponent.mk4 ⟨0, 0, 10, 10⟩ RED true "box"] }
      ⟨0, 0, 10, 10⟩).2.2 (by simp [CollisionComponent.mk4]) (by norm_num) (by norm_num)⟩

/-! ## C2: the pairwise sweep -/

theorem foldl_ite_filter {β σ : Type} (P : β → Bool) (f : β → σ → σ) (l : List β) (s : σ) :
    l.foldl (fun s j => if P j then f j s else s) s =
      (l.filter P).foldl (fun s j => f j s) s := by
  induction l generalizing s with
  | nil => rfl
  | cons j rest ih =>
    by_cases h : P j = true
    · simp [List.filter_cons, h, ih]
    · simp [List.filter_cons, h, ih]

theorem foldl_nested {α β σ : Type} (g : α → List β) (f : α → β → σ → σ) (l : List α) (s : σ) :
    l.foldl (fun s i => (g i).foldl (fun s j => f i j s) s) s =
      (l.flatMap fun i => (g i).map fun j => (i, j)).foldl (fun s p => f p.1 p.2 s) s := by
  induction l generalizing s with
  | nil => rfl
  | cons i rest ih =>
    simp [List.flatMap_cons, List.foldl_append, List.foldl_map, ih]

theorem filter_flatMap_pairs {α β : Type} (g : α → List β) (P : α → β → Bool) (l : List α) :
    (l.flatMap fun i => ((g i).filter (P i)).map fun j => (i, j)) =
      (l.flatMap fun i => (g i).map fun j => (i, j)).filter fun p => P p.1 p.2 := by
  induction l with
  | nil => rfl
  | cons i rest ih =>
    simp only [List.flatMap_cons, List.filter_append, ih, List.filter_map]
    rfl

theorem drop_range_eq_filter (n k : Nat) :
    (List.range n).drop k = (List.range n).filter fun j => decide (k ≤ j) := by
  induction n with
  | zero => simp
  | succ n ih =>
    rw [List.range_succ, List.filter_append]
    by_cases h : k ≤ n
    · rw [List.drop_append_of_le_length (by simpa using h), ih]
      simp [h]
    · have hk : n < k := Nat.lt_of_not_le h
      rw [List.drop_eq_nil_of_le (by simp; omega)]
      have h1 : List.filter (fun j => decide (k ≤ j)) (List.range n) = [] := by
        rw [List.filter_eq_nil_iff]
        intro j hj
        have := List.mem_range.mp hj
        simp; omega
      simp [h1, h]

theorem mem_indexPairs (n i j : Nat) : (i, j) ∈ indexPairs n ↔ i < j ∧ j < n := by
  simp only [indexPairs, List.mem_flatMap, List.mem_range, List.mem_map, List.mem_filter,
    decide_eq_true_eq, Prod.mk.injEq]
  constructor
  · rintro ⟨a, -, b, ⟨hb, hab⟩, rfl, rfl⟩
    exact ⟨hab, hb⟩
  · rintro ⟨hij, hj⟩
    exact ⟨i, by omega, j, ⟨hj, hij⟩, rfl, rfl⟩

theorem pairwise_indexPairs (n : Nat) : (indexPairs n).Pairwise pairBefore := by
  unfold indexPairs
  rw [List.pairwise_flatMap]
  constructor
  · intro i _
    rw [List.pairwise_map]
    refine List.Pairwise.imp ?_ ((List.pairwise_lt_range n).filter _)
    intro a b hab
    exact Or.inr ⟨rfl, hab⟩
  · refine List.Pairwise.imp ?_ (List.pairwise_lt_range n)
    intro a b hab x hx y hy
    simp only [List.mem_map, List.mem_filter] at hx hy
    obtain ⟨_, _, rfl⟩ := hx
    obtain ⟨_, _, rfl⟩ := hy
    exact Or.inl hab

theorem pairBefore_ne {p q : Nat × Nat} (h : pairBefore p q) : p ≠ q := by
  rintro rfl
  rcases h with h | ⟨_, h⟩ <;> exact lt_irrefl _ h

theorem ids_nodup (sys : GameObjectSystem) : sys.ids.Nodup :=
  List.Pairwise.imp (fun h => ne_of_lt h) sys.sorted

theorem ids_getD_inj (sys : GameObjectSystem) {i j : Nat} (hi : i < sys.ids.length)
    (hj : j < sys.ids.length) (h : sys.ids.getD i "" = sys.ids.getD j "") : i = j := by
  rw [List.getD_eq_getElem _ _ hi, List.getD_eq_getElem _ _ hj] at h
  exact (ids_nodup sys).getElem_inj_iff.mp h

theorem mem_collidingIndexPairs (sys : GameObjectSystem) (i j : Nat) :
    (i, j) ∈ sys.collidingIndexPairs ↔
      i < j ∧ j < sys.ids.length ∧
        sys.CheckCollision (sys.ids.getD i "") (sys.ids.getD j "") = true := by
  simp [GameObjectSystem.collidingIndexPairs, mem_indexPairs, and_assoc]

theorem CheckAllCollisions_eq_foldl {σ : Type} (sys : GameObjectSystem)
    (callback : String → String → σ → σ) (s : σ) :
    sys.CheckAllCollisions callback s =
      sys.collidingIndexPairs.foldl
        (fun s p => callback (sys.ids.getD p.1 "") (sys.ids.getD p.2 "") s) s := by
  unfold GameObjectSystem.CheckAllCollisions GameObjectSystem.collidingIndexPairs indexPairs
  simp only
  have hinner : ∀ (i : Nat) (s : σ),
      ((List.range sys.ids.length).drop (i + 1)).foldl
        (fun s j =>
          if sys.CheckCollision (sys.ids.getD i "") (sys.ids.getD j "") then
            callback (sys.ids.getD i "") (sys.ids.getD j "") s
          else s) s =
      (((List.range sys.ids.length).filter fun j => decide (i < j)).filter fun j =>
          sys.CheckCollision (sys.ids.getD i "") (sys.ids.getD j "")).foldl
        (fun s j => callback (sys.ids.getD i "") (sys.ids.getD j "") s) s := by
    intro i s
    rw [foldl_ite_filter (fun j => sys.CheckCollision (sys.ids.getD i "") (sys.ids.getD j ""))
      (fun j s => callback (sys.ids.getD i "") (sys.ids.getD j "") s), drop_range_eq_filter]
    rfl
  simp only [hinner]
  rw [foldl_nested
    (fun i => ((List.range sys.ids.length).filter fun j => decide (i < j)).filter fun j =>
      sys.CheckCollision (sys.ids.getD i "") (sys.ids.getD j ""))
    (fun i j s => callback (sys.ids.getD i "") (sys.ids.getD j "") s)]
  rw [filter_flatMap_pairs (fun i => (List.range sys.ids.length).filter fun j => decide (i < j))
    (fun i j => sys.CheckCollision (sys.ids.getD i "") (sys.ids.getD j ""))]

theorem foldl_log {α β : Type} (F : α → β) (l : List α) (init : List β) :
    l.foldl (fun log p => log ++ [F p]) init = init ++ l.map F := by
  induction l generalizing init with
  | nil => simp
  | cons a rest ih => simp [ih]

theorem collisionCalls_eq_map (sys : GameObjectSystem) :
    sys.collisionCalls =
      sys.collidingIndexPairs.map fun p => (sys.ids.getD p.1 "", sys.ids.getD p.2 "") := by
  unfold GameObjectSystem.collisionCalls
  rw [CheckAllCollisions_eq_foldl]
  exact (foldl_log (fun p : Nat × Nat => (sys.ids.getD p.1 "", sys.ids.getD p.2 "")) _ []).trans
    (by simp)

theorem collidingIndexPairs_nodup (sys : GameObjectSystem) : sys.collidingIndexPairs.Nodup :=
  List.Pairwise.imp pairBefore_ne ((pairwise_indexPairs _).filter _)

theorem mem_collisionCalls (sys : GameObjectSystem) (a b : String) :
    (a, b) ∈ sys.collisionCalls ↔
      ∃ i j, i < j ∧ j < sys.ids.length ∧
        sys.CheckCollision (sys.ids.getD i "") (sys.ids.getD j "") = true ∧
        a = sys.ids.getD i "" ∧ b = sys.ids.getD j "" := by
  rw [collisionCalls_eq_map]
  simp only [List.mem_map, Prod.mk.injEq, Prod.exists, mem_collidingIndexPairs]
  constructor
  · rintro ⟨i, j, ⟨h1, h2, h3⟩, rfl, rfl⟩
    exact ⟨i, j, h1, h2, h3, rfl, rfl⟩
  · rintro ⟨i, j, h1, h2, h3, rfl, rfl⟩
    exact ⟨i, j, ⟨h1, h2, h3⟩, rfl, rfl⟩

theorem collisionCalls_nodup (sys : GameObjectSystem) : sys.collisionCalls.Nodup := by
  rw [collisionCalls_eq_map]
  refine List.Nodup.map_on ?_ (collidingIndexPairs_nodup sys)
  rintro ⟨i, j⟩ hp ⟨k, l⟩ hq heq
  rw [mem_collidingIndexPairs] at hp hq
  simp only [Prod.mk.injEq] at heq ⊢
  exact ⟨ids_getD_inj sys (by omega) (by omega) heq.1,
    ids_getD_inj sys (by omega) (by omega) heq.2⟩

theorem collisionCalls_no_swap (sys : GameObjectSystem) (a b : String)
    (h : (a, b) ∈ sys.collisionCalls) : (b, a) ∉ sys.collisionCalls := by
  intro h2
  rw [mem_collisionCalls] at h h2
  obtain ⟨i, j, hij, hj, -, ha, hb⟩ := h
  obtain ⟨k, l, hkl, hl, -, hb2, ha2⟩ := h2
  have e1 : j = k := ids_getD_inj sys (by omega) (by omega) (hb.symm.trans hb2)
  have e2 : i = l := ids_getD_inj sys (by omega) (by omega) (ha.symm.trans ha2)
  omega

theorem checkInnerLoop_iff (r : Rectangle) (p : Vector2) (cs : List CollisionComponent) :
    GameObject.checkInnerLoop r p cs = true ↔
      ∃ c ∈ cs, c.isSolid = true ∧ CheckCollisionRecs r (GameObject.worldRect p c) = true := by
  induction cs with
  | nil => simp [GameObject.checkInnerLoop]
  | cons c rest ih =>
    simp only [GameObject.checkInnerLoop, List.mem_cons, exists_eq_or_imp]
    by_cases hs : c.isSolid = true
    · by_cases hc : CheckCollisionRecs r (GameObject.worldRect p c) = true
      · simp [hs, hc]
      · simp [hs, hc, ih]
    · simp [hs, ih]

theorem checkOuterLoop_iff (p : Vector2) (b : GameObject) (cs : List CollisionComponent) :
    GameObject.checkOuterLoop p b cs = true ↔
      ∃ c ∈ cs, c.isSolid = true ∧
        GameObject.checkInnerLoop (GameObject.worldRect p c) b.position
          b.collisionComponents = true := by
  induction cs with
  | nil => simp [GameObject.checkOuterLoop]
  | cons c rest ih =>
    simp only [GameObject.checkOuterLoop, List.mem_cons, exists_eq_or_imp]
    by_cases hs : c.isSolid = true
    · by_cases hc : GameObject.checkInnerLoop (GameObject.worldRect p c) b.position
          b.collisionComponents = true
      · simp [hs, hc]
      · simp [hs, hc, ih]
    · simp [hs, ih]

theorem CheckCollisionObject_iff (a b : GameObject) :
    a.CheckCollisionObject b = true ↔ SolidOverlap a b := by
  unfold GameObject.CheckCollisionObject SolidOverlap
  rw [checkOuterLoop_iff]
  simp only [checkInnerLoop_iff]

theorem find_key_of_sorted (objs : List (String × GameObject))
    (h : (objs.map Prod.fst).Pairwise (fun a b => a < b)) (i : Nat) (hi : i < objs.length) :
    objs.find? (fun e => e.1 == (objs[i]).1) = some objs[i] := by
  induction objs generalizing i with
  | nil => simp at hi
  | cons e rest ih =>
    rw [List.map_cons, List.pairwise_cons] at h
    cases i with
    | zero => simp [List.find?_cons]
    | succ k =>
      have hk : k < rest.length := by simpa using hi
      have hlt : e.1 < (rest[k]).1 := h.1 _ (List.mem_map.mpr ⟨rest[k], List.getElem_mem _, rfl⟩)
      have hne : (e.1 == (rest[k]).1) = false := by
        simpa using ne_of_lt hlt
      simp only [List.getElem_cons_succ, List.find?_cons, hne]
      exact ih h.2 k hk

theorem ids_length (sys : GameObjectSystem) : sys.ids.length = sys.objects.length := by
  simp [GameObjectSystem.ids]

theorem GetObject_ids (sys : GameObjectSystem) (i : Nat) (hi : i < sys.objects.length) :
    sys.GetObject (sys.ids.getD i "") = some (sys.objectAt i) := by
  have h1 : sys.ids.getD i "" = (sys.objects[i]).1 := by
    rw [List.getD_eq_getElem _ _ (by rw [ids_length]; exact hi)]
    simp [GameObjectSystem.ids]
  have h2 : sys.objectAt i = (sys.objects[i]).2 := by
    unfold GameObjectSystem.objectAt
    rw [List.getD_eq_getElem _ _ (by simpa using hi)]
    simp
  unfold GameObjectSystem.GetObject
  rw [h1, find_key_of_sorted sys.objects sys.sorted i hi, h2]
  rfl

theorem CheckCollision_ids (sys : GameObjectSystem) (i j : Nat) (hi : i < sys.objects.length)
    (hj : j < sys.objects.length) :
    sys.CheckCollision (sys.ids.getD i "") (sys.ids.getD j "") = true ↔
      SolidOverlap (sys.objectAt i) (sys.objectAt j) := by
  unfold GameObjectSystem.CheckCollision
  rw [GetObject_ids sys i hi, GetObject_ids sys j hj]
  exact CheckCollisionObject_iff _ _

theorem mem_collidingIndexPairs_overlap (sys : GameObjectSystem) (i j : Nat) :
    (i, j) ∈ sys.collidingIndexPairs ↔
      i < j ∧ j < sys.objects.length ∧ SolidOverlap (sys.objectAt i) (sys.objectAt j) := by
  rw [mem_collidingIndexPairs, ids_length]
  constructor
  · rintro ⟨h1, h2, h3⟩
    exact ⟨h1, h2, (CheckCollision_ids sys i j (by omega) h2).mp h3⟩
  · rintro ⟨h1, h2, h3⟩
    exact ⟨h1, h2, (CheckCollision_ids sys i j (by omega) h2).mpr h3⟩

theorem collisionCalls_length (sys : GameObjectSystem) :
    sys.collisionCalls.length = sys.overlappingPairCount := by
  rw [collisionCalls_eq_map, List.length_map, ← List.toFinset_card_of_nodup
    (collidingIndexPairs_nodup sys)]
  unfold GameObjectSystem.overlappingPairCount
  congr 1
  ext ⟨i, j⟩
  simp only [List.mem_toFinset, mem_collidingIndexPairs_overlap, Finset.mem_filter,
    Finset.mem_product, Finset.mem_range]
  constructor
  · rintro ⟨h1, h2, h3⟩
    exact ⟨⟨by omega, h2⟩, h1, h3⟩
  · rintro ⟨⟨_, h2⟩, h1, h3⟩
    exact ⟨h1, h2, h3⟩

/-- C2: the sweep invokes the callback once for each pair of positions `i < j`
of the ascending id snapshot with `CheckCollision(ids[i], ids[j])`, for no other
pair, by ascending `i` then ascending `j`, always as `(ids[i], ids[j])`; the
number of calls is the number K of colliding pairs, no call is repeated and no
pair is reported with swapped arguments. -/
theorem C2_CheckAllCollisions_sweep {σ : Type} (sys : GameObjectSystem)
    (callback : String → String → σ → σ) (s : σ) :
    sys.CheckAllCollisions callback s =
      sys.collidingIndexPairs.foldl
        (fun s p => callback (sys.ids.getD p.1 "") (sys.ids.getD p.2 "") s) s ∧
    (∀ i j, (i, j) ∈ sys.collidingIndexPairs ↔
      i < j ∧ j < sys.ids.length ∧
        sys.CheckCollision (sys.ids.getD i "") (sys.ids.getD j "") = true) ∧
    (∀ i j, (i, j) ∈ sys.collidingIndexPairs ↔
      i < j ∧ j < sys.objects.length ∧ SolidOverlap (sys.objectAt i) (sys.objectAt j)) ∧
    sys.collidingIndexPairs.Pairwise pairBefore ∧
    sys.collidingIndexPairs.Nodup ∧
    sys.ids.Pairwise (fun a b => a < b) ∧
    sys.collisionCalls =
      sys.collidingIndexPairs.map (fun p => (sys.ids.getD p.1 "", sys.ids.getD p.2 "")) ∧
    sys.collisionCalls.length = sys.overlappingPairCount ∧
    sys.collisionCalls.Nodup ∧
    (∀ a b, ¬ ((a, b) ∈ sys.collisionCalls ∧ (b, a) ∈ sys.collisionCalls)) :=
  ⟨CheckAllCollisions_eq_foldl sys callback s,
    mem_collidingIndexPairs sys,
    mem_collidingIndexPairs_overlap sys,
    (pairwise_indexPairs _).filter _,
    collidingIndexPairs_nodup sys,
    sys.sorted,
    collisionCalls_eq_map sys,
    collisionCalls_length sys,
    collisionCalls_nodup sys,
    fun a b h => collisionCalls_no_swap sys a b h.1 h.2⟩

/-- The sweep on the sample registry: of the six pairs exactly a/b and b/d
overlap, and they are reported in that order. -/
theorem sampleRegistry_collisionCalls :
    sampleRegistry.collisionCalls = [("a", "b"), ("b", "d")] := by
  simp [GameObjectSystem.collisionCalls, GameObjectSystem.CheckAllCollisions,
    GameObjectSystem.ids, sampleRegistry, List.range_succ, GameObjectSystem.CheckCollision,
    GameObjectSystem.GetObject, sampleBox, GameObject.CheckCollisionObject,
    GameObject.checkOuterLoop, GameObject.checkInnerLoop, CollisionComponent.mk4,
    CheckCollisionRecs, GameObject.worldRect]
  norm_num

/-! ## Character: input, rollback, animation -/

theorem HandleInput_oldPosition (c : Character) (keys : KeyboardKey → Bool) (dt : ℚ) :
    (c.HandleInput keys dt).oldPosition = c.position := by
  unfold Character.HandleInput
  generalize (keys KeyboardKey.KEY_RIGHT || keys KeyboardKey.KEY_D) = r
  generalize (keys KeyboardKey.KEY_LEFT || keys KeyboardKey.KEY_A) = l
  generalize (keys KeyboardKey.KEY_UP || keys KeyboardKey.KEY_W) = u
  generalize (keys KeyboardKey.KEY_DOWN || keys KeyboardKey.KEY_S) = d
  cases r <;> cases l <;> cases u <;> cases d <;> rfl

/-- C3: whatever keys are held, whatever the speed and the frame time,
`HandleInput` followed by `ResolveCollision` leaves the position exactly where
it was before `HandleInput`. -/
theorem C3_ResolveCollision_restores (c : Character) (keys : KeyboardKey → Bool) (dt : ℚ) :
    ((c.HandleInput keys dt).ResolveCollision).position = c.position ∧
    ((c.HandleInput keys dt).ResolveCollision).position.x = c.position.x ∧
    ((c.HandleInput keys dt).ResolveCollision).position.y = c.position.y := by
  have h : ((c.HandleInput keys dt).ResolveCollision).position = c.position := by
    simp [Character.ResolveCollision, HandleInput_oldPosition]
  exact ⟨h, by rw [h], by rw [h]⟩

theorem HandleInput_state_direction (c : Character) (keys : KeyboardKey → Bool) (dt : ℚ) :
    (c.HandleInput keys dt).currentState =
      (if heldRight keys || heldLeft keys || heldUp keys || heldDown keys
        then AnimationState.WALKING else AnimationState.IDLE) ∧
    (c.HandleInput keys dt).currentDirection =
      (if heldDown keys then Direction.DOWN
       else if heldUp keys then Direction.UP
       else if heldLeft keys then Direction.LEFT
       else if heldRight keys then Direction.RIGHT
       else c.currentDirection) ∧
    (c.HandleInput keys dt).currentFrame = c.currentFrame ∧
    (c.HandleInput keys dt).animationTimer = c.animationTimer ∧
    (c.HandleInput keys dt).animationSpeed = c.animationSpeed ∧
    (c.HandleInput keys dt).framesPerDirection = c.framesPerDirection := by
  unfold Character.HandleInput heldRight heldLeft heldUp heldDown
  generalize (keys KeyboardKey.KEY_RIGHT || keys KeyboardKey.KEY_D) = r
  generalize (keys KeyboardKey.KEY_LEFT || keys KeyboardKey.KEY_A) = l
  generalize (keys KeyboardKey.KEY_UP || keys KeyboardKey.KEY_W) = u
  generalize (keys KeyboardKey.KEY_DOWN || keys KeyboardKey.KEY_S) = d
  cases r <;> cases l <;> cases u <;> cases d <;> exact ⟨rfl, rfl, rfl, rfl, rfl, rfl⟩

theorem HandleInput_position (c : Character) (keys : KeyboardKey → Bool) (dt : ℚ) :
    (c.HandleInput keys dt).position =
      (let mx : ℚ := (if heldRight keys then 1 else 0) - (if heldLeft keys then 1 else 0)
       let my : ℚ := (if heldDown keys then 1 else 0) - (if heldUp keys then 1 else 0)
       if heldRight keys || heldLeft keys || heldUp keys || heldDown keys then
         if mx ≠ 0 ∧ my ≠ 0 then
           ⟨floatAdd c.position.x (floatMul (floatMul (mx * float0_7071) c.speed) dt),
            floatAdd c.position.y (floatMul (floatMul (my * float0_7071) c.speed) dt)⟩
         else
           ⟨floatAdd c.position.x (floatMul (floatMul mx c.speed) dt),
            floatAdd c.position.y (floatMul (floatMul my c.speed) dt)⟩
       else c.position) := by
  unfold Character.HandleInput heldRight heldLeft heldUp heldDown
  generalize (keys KeyboardKey.KEY_RIGHT || keys KeyboardKey.KEY_D) = r
  generalize (keys KeyboardKey.KEY_LEFT || keys KeyboardKey.KEY_A) = l
  generalize (keys KeyboardKey.KEY_UP || keys KeyboardKey.KEY_W) = u
  generalize (keys KeyboardKey.KEY_DOWN || keys KeyboardKey.KEY_S) = d
  cases r <;> cases l <;> cases u <;> cases d <;>
    norm_num [floatAdd, floatSub, floatMul, roundToFloat_zero, roundToFloat_one,
      roundToFloat_neg_one, roundToFloat_float0_7071, roundToFloat_neg_float0_7071]

theorem Update_walking (c : Character) (dt : ℚ) (hw : c.currentState = AnimationState.WALKING) :
    c.Update dt =
      if c.animationTimer + dt ≥ c.animationSpeed then
        { c with
          animationTimer := 0
          currentFrame := Int.tmod (c.currentFrame + 1) c.framesPerDirection }
      else { c with animationTimer := c.animationTimer + dt } := by
  simp [Character.Update, Character.UpdateAnimation, hw]

/-- C4: while WALKING with `framesPerDirection = n > 0`, `Update(dt)` with
`animationTimer + dt >= animationSpeed` sets the timer to 0 and the frame to
`(currentFrame + 1) % n` (the C++ remainder, which for a frame that is not
negative is the mathematical residue and lies in `[0, n)`); otherwise it keeps
the frame and stores `animationTimer + dt`.  With n = 4, animationSpeed = 0.1,
frame 0 and timer 0, four calls `Update(0.1)` give the frames 1, 2, 3, 0. -/
theorem C4_Update_cycles_frames (c : Character) (dt : ℚ)
    (hw : c.currentState = AnimationState.WALKING) (hn : 0 < c.framesPerDirection) :
    (c.animationTimer + dt ≥ c.animationSpeed →
      (c.Update dt).animationTimer = 0 ∧
      (c.Update dt).currentFrame = Int.tmod (c.currentFrame + 1) c.framesPerDirection ∧
      (0 ≤ c.currentFrame →
        (c.Update dt).currentFrame = (c.currentFrame + 1) % c.framesPerDirection ∧
        0 ≤ (c.Update dt).currentFrame ∧ (c.Update dt).currentFrame < c.framesPerDirection)) ∧
    (¬ (c.animationTimer + dt ≥ c.animationSpeed) →
      (c.Update dt).currentFrame = c.currentFrame ∧
      (c.Update dt).animationTimer = c.animationTimer + dt) ∧
    (c.framesPerDirection = 4 → c.animationSpeed = 1 / 10 → c.currentFrame = 0 →
      c.animationTimer = 0 →
      (c.Update (1 / 10)).currentFrame = 1 ∧
      ((c.Update (1 / 10)).Update (1 / 10)).currentFrame = 2 ∧
      (((c.Update (1 / 10)).Update (1 / 10)).Update (1 / 10)).currentFrame = 3 ∧
      ((((c.Update (1 / 10)).Update (1 / 10)).Update (1 / 10)).Update (1 / 10)).currentFrame
        = 0) := by
  refine ⟨?_, ?_, ?_⟩
  · intro h
    rw [Update_walking c dt hw, if_pos h]
    refine ⟨rfl, rfl, ?_⟩
    intro h0
    have h1 : (0 : Int) ≤ c.currentFrame + 1 := by omega
    have h2 : Int.tmod (c.currentFrame + 1) c.framesPerDirection =
        (c.currentFrame + 1) % c.framesPerDirection := Int.tmod_eq_emod h1 (le_of_lt hn)
    refine ⟨h2, ?_, ?_⟩
    · show 0 ≤ Int.tmod (c.currentFrame + 1) c.framesPerDirection
      rw [h2]
      exact Int.emod_nonneg _ (ne_of_gt hn)
    · show Int.tmod (c.currentFrame + 1) c.framesPerDirection < c.framesPerDirection
      rw [h2]
      exact Int.emod_lt_of_pos _ hn
  · intro h
    rw [Update_walking c dt hw, if_neg h]
    exact ⟨rfl, rfl⟩
  · intro h4 hs hf ht
    have step : ∀ (k : Character), k.currentState = AnimationState.WALKING →
        k.framesPerDirection = 4 → k.animationSpeed = 1 / 10 → k.animationTimer = 0 →
        (k.Update (1 / 10)).currentState = AnimationState.WALKING ∧
        (k.Update (1 / 10)).framesPerDirection = 4 ∧
        (k.Update (1 / 10)).animationSpeed = 1 / 10 ∧
        (k.Update (1 / 10)).animationTimer = 0 ∧
        (k.Update (1 / 10)).currentFrame = Int.tmod (k.currentFrame + 1) 4 := by
      intro k kw k4 ks kt
      rw [Update_walking k _ kw, if_pos (by rw [kt, ks]; norm_num)]
      exact ⟨kw, k4, ks, rfl, by rw [← k4]⟩
    obtain ⟨a1, a2, a3, a4, a5⟩ := step c hw h4 hs ht
    obtain ⟨b1, b2, b3, b4, b5⟩ := step _ a1 a2 a3 a4
    obtain ⟨c1, c2, c3, c4, c5⟩ := step _ b1 b2 b3 b4
    obtain ⟨d1, d2, d3, d4, d5⟩ := step _ c1 c2 c3 c4
    rw [hf] at a5
    have e1 : (c.Update (1 / 10)).currentFrame = 1 := by rw [a5]; decide
    rw [e1] at b5
    have e2 : ((c.Update (1 / 10)).Update (1 / 10)).currentFrame = 2 := by rw [b5]; decide
    rw [e2] at c5
    have e3 : (((c.Update (1 / 10)).Update (1 / 10)).Update (1 / 10)).currentFrame = 3 := by
      rw [c5]; decide
    rw [e3] at d5
    exact ⟨e1, e2, e3, by rw [d5]; decide⟩

/-- C4 (witness): the sample player, WALKING, fed `Update(0.1)` four times. -/
theorem C4_Update_cycles_frames_witness :
    walkingPlayer.currentState = AnimationState.WALKING ∧
    0 < walkingPlayer.framesPerDirection ∧
    ((walkingPlayer.Update (1 / 10)).currentFrame = 1 ∧
     ((walkingPlayer.Update (1 / 10)).Update (1 / 10)).currentFrame = 2 ∧
     (((walkingPlayer.Update (1 / 10)).Update (1 / 10)).Update (1 / 10)).currentFrame = 3 ∧
     ((((walkingPlayer.Update (1 / 10)).Update (1 / 10)).Update (1 / 10)).Update
        (1 / 10)).currentFrame = 0) :=
  ⟨rfl, by decide,
    (C4_Update_cycles_frames walkingPlayer (1 / 10) rfl (by decide)).2.2 rfl rfl rfl rfl⟩

/-- C5: a frame in which `HandleInput` sees no direction key and `Update(dt)`
then runs ends IDLE with frame 0 and timer 0, whatever the state, frame and
timer were before. -/
theorem C5_idle_resets_animation (c : Character) (keys : KeyboardKey → Bool) (frameTime dt : ℚ)
    (hr : heldRight keys = false) (hl : heldLeft keys = false)
    (hu : heldUp keys = false) (hd : heldDown keys = false) :
    ((c.HandleInput keys frameTime).Update dt).currentState = AnimationState.IDLE ∧
    ((c.HandleInput keys frameTime).Update dt).currentFrame = 0 ∧
    ((c.HandleInput keys frameTime).Update dt).animationTimer = 0 := by
  have h := (HandleInput_state_direction c keys frameTime).1
  rw [hr, hl, hu, hd] at h
  simp only [Bool.or_self, Bool.false_eq_true, if_false] at h
  simp [Character.Update, Character.UpdateAnimation, h]

/-- C5 (witness): the sample player in the middle of a walk cycle, no key down. -/
theorem C5_idle_resets_animation_witness :
    heldRight noKeys = false ∧ heldLeft noKeys = false ∧
    heldUp noKeys = false ∧ heldDown noKeys = false ∧
    ((midWalkPlayer.HandleInput noKeys (1 / 60)).Update (1 / 60)).currentState
      = AnimationState.IDLE ∧
    ((midWalkPlayer.HandleInput noKeys (1 / 60)).Update (1 / 60)).currentFrame = 0 ∧
    ((midWalkPlayer.HandleInput noKeys (1 / 60)).Update (1 / 60)).animationTimer = 0 :=
  ⟨rfl, rfl, rfl, rfl,
    C5_idle_resets_animation midWalkPlayer noKeys (1 / 60) (1 / 60) rfl rfl rfl rfl⟩

/-- C6: `HandleInput` sets the state to WALKING when at least one direction is
held and to IDLE otherwise, and the direction to that of the last held
direction in the order right, left, up, down (DOWN, else UP, else LEFT, else
RIGHT), also when opposite keys cancel; with no direction held the direction
is unchanged. -/
theorem C6_HandleInput_state_and_direction (c : Character) (keys : KeyboardKey → Bool)
    (dt : ℚ) :
    (c.HandleInput keys dt).currentState =
      (if heldRight keys || heldLeft keys || heldUp keys || heldDown keys
        then AnimationState.WALKING else AnimationState.IDLE) ∧
    (c.HandleInput keys dt).currentDirection =
      (if heldDown keys then Direction.DOWN
       else if heldUp keys then Direction.UP
       else if heldLeft keys then Direction.LEFT
       else if heldRight keys then Direction.RIGHT
       else c.currentDirection) :=
  ⟨(HandleInput_state_direction c keys dt).1, (HandleInput_state_direction c keys dt).2.1⟩

/-! ## C7: world bounds -/

theorem CheckWorldBounds_position (c : Character) (worldSize : Vector2) :
    (c.CheckWorldBounds worldSize).position.x =
      (if (if c.position.x < (c.spriteWidth : ℚ) / 2 then (c.spriteWidth : ℚ) / 2
            else c.position.x) > worldSize.x - (c.spriteWidth : ℚ) / 2
        then worldSize.x - (c.spriteWidth : ℚ) / 2
        else (if c.position.x < (c.spriteWidth : ℚ) / 2 then (c.spriteWidth : ℚ) / 2
            else c.position.x)) ∧
    (c.CheckWorldBounds worldSize).position.y =
      (if (if c.position.y < (c.spriteHeight : ℚ) / 2 then (c.spriteHeight : ℚ) / 2
            else c.position.y) > worldSize.y - (c.spriteHeight : ℚ) / 2
        then worldSize.y - (c.spriteHeight : ℚ) / 2
        else (if c.position.y < (c.spriteHeight : ℚ) / 2 then (c.spriteHeight : ℚ) / 2
            else c.position.y)) ∧
    (c.CheckWorldBounds worldSize).spriteWidth = c.spriteWidth ∧
    (c.CheckWorldBounds worldSize).spriteHeight = c.spriteHeight := by
  unfold Character.CheckWorldBounds Character.GetBounds
  refine ⟨?_, ?_, ?_, ?_⟩ <;> simp only [] <;> split_ifs <;> rfl

/-- C7 (counterexample): a world 40 wide is narrower than the 64 wide sprite.
The player at x = 0 is first raised to the lower limit 32 and then lowered to
the upper limit 40 - 32 = 8, so it ends below the lower limit. -/
theorem C7_narrow_world_breaks_lower_limit :
    edgePlayer.GetBounds.width / 2 = 32 ∧
    edgePlayer.position.x < edgePlayer.GetBounds.width / 2 ∧
    (edgePlayer.CheckWorldBounds ⟨40, 600⟩).position.x = 8 ∧
    ¬ (edgePlayer.GetBounds.width / 2 ≤ (edgePlayer.CheckWorldBounds ⟨40, 600⟩).position.x) := by
  have hw : edgePlayer.spriteWidth = 64 := rfl
  have hx : edgePlayer.position.x = 0 := rfl
  have h8 : (edgePlayer.CheckWorldBounds ⟨40, 600⟩).position.x = 8 := by
    rw [(CheckWorldBounds_position edgePlayer ⟨40, 600⟩).1, hw, hx]
    norm_num
  have h32 : edgePlayer.GetBounds.width / 2 = 32 := by
    show ((edgePlayer.spriteWidth : ℚ)) / 2 = 32
    rw [hw]; norm_num
  refine ⟨h32, ?_, h8, ?_⟩
  · rw [h32, hx]; norm_num
  · rw [h32, h8]; norm_num

/-- C7 (amended): when the world is at least as wide and as high as the
character's bounds, after `CheckWorldBounds` the position lies in
`[hw, W - hw] x [hh, H - hh]`, `GetBounds()` lies inside `[0, W] x [0, H]`, a
coordinate that was below its lower limit equals that limit, one that was above
its upper limit equals that limit, and one inside its interval is unchanged. -/
theorem C7_CheckWorldBounds_clamps (c : Character) (worldSize : Vector2)
    (hW : c.GetBounds.width ≤ worldSize.x) (hH : c.GetBounds.height ≤ worldSize.y) :
    (c.GetBounds.width / 2 ≤ (c.CheckWorldBounds worldSize).position.x ∧
      (c.CheckWorldBounds worldSize).position.x ≤ worldSize.x - c.GetBounds.width / 2) ∧
    (c.GetBounds.height / 2 ≤ (c.CheckWorldBounds worldSize).position.y ∧
      (c.CheckWorldBounds worldSize).position.y ≤ worldSize.y - c.GetBounds.height / 2) ∧
    (0 ≤ (c.CheckWorldBounds worldSize).GetBounds.x ∧
      (c.CheckWorldBounds worldSize).GetBounds.x + (c.CheckWorldBounds worldSize).GetBounds.width
        ≤ worldSize.x ∧
      0 ≤ (c.CheckWorldBounds worldSize).GetBounds.y ∧
      (c.CheckWorldBounds worldSize).GetBounds.y + (c.CheckWorldBounds worldSize).GetBounds.height
        ≤ worldSize.y) ∧
    (c.position.x < c.GetBounds.width / 2 →
      (c.CheckWorldBounds worldSize).position.x = c.GetBounds.width / 2) ∧
    (c.position.x > worldSize.x - c.GetBounds.width / 2 →
      (c.CheckWorldBounds worldSize).position.x = worldSize.x - c.GetBounds.width / 2) ∧
    (c.GetBounds.width / 2 ≤ c.position.x → c.position.x ≤ worldSize.x - c.GetBounds.width / 2 →
      (c.CheckWorldBounds worldSize).position.x = c.position.x) ∧
    (c.position.y < c.GetBounds.height / 2 →
      (c.CheckWorldBounds worldSize).position.y = c.GetBounds.height / 2) ∧
    (c.position.y > worldSize.y - c.GetBounds.height / 2 →
      (c.CheckWorldBounds worldSize).position.y = worldSize.y - c.GetBounds.height / 2) ∧
    (c.GetBounds.height / 2 ≤ c.position.y →
      c.position.y ≤ worldSize.y - c.GetBounds.height / 2 →
      (c.CheckWorldBounds worldSize).position.y = c.position.y) := by
  obtain ⟨hx, hy, hsw, hsh⟩ := CheckWorldBounds_position c worldSize
  have hW2 : (c.spriteWidth : ℚ) ≤ worldSize.x := hW
  have hH2 : (c.spriteHeight : ℚ) ≤ worldSize.y := hH
  simp only [Character.GetBounds, hsw, hsh]
  rw [hx, hy]
  refine ⟨⟨?_, ?_⟩, ⟨?_, ?_⟩, ⟨?_, ?_, ?_, ?_⟩, ?_, ?_, ?_, ?_, ?_, ?_⟩
  all_goals first
    | (intro h1 h2; split_ifs <;> linarith)
    | (intro h1; split_ifs <;> linarith)
    | (split_ifs <;> linarith)

/-- C7 (witness): the sample player at (0, 300) in the 800 x 600 world of
`main`. -/
theorem C7_CheckWorldBounds_clamps_witness :
    edgePlayer.GetBounds.width ≤ 800 ∧ edgePlayer.GetBounds.height ≤ 600 ∧
    (edgePlayer.GetBounds.width / 2 ≤ (edgePlayer.CheckWorldBounds ⟨800, 600⟩).position.x ∧
      (edgePlayer.CheckWorldBounds ⟨800, 600⟩).position.x
        ≤ 800 - edgePlayer.GetBounds.width / 2) :=
  have hW : edgePlayer.GetBounds.width ≤ 800 := by
    show ((edgePlayer.spriteWidth : ℚ)) ≤ 800
    rw [show edgePlayer.spriteWidth = 64 from rfl]; norm_num
  have hH : edgePlayer.GetBounds.height ≤ 600 := by
    show ((edgePlayer.spriteHeight : ℚ)) ≤ 600
    rw [show edgePlayer.spriteHeight = 64 from rfl]; norm_num
  ⟨hW, hH, (C7_CheckWorldBounds_clamps edgePlayer ⟨800, 600⟩ hW hH).1⟩

/-! ## C8: diagonal normalisation -/

theorem HandleInput_position_diagonal (c : Character) (keys : KeyboardKey → Bool) (dt : ℚ)
    (h1 : heldRight keys ≠ heldLeft keys) (h2 : heldUp keys ≠ heldDown keys) :
    (c.HandleInput keys dt).position =
      ⟨floatAdd c.position.x
        (floatMul (floatMul ((if heldRight keys then 1 else -1) * float0_7071) c.speed) dt),
       floatAdd c.position.y
        (floatMul (floatMul ((if heldDown keys then 1 else -1) * float0_7071) c.speed) dt)⟩ := by
  rw [HandleInput_position]
  generalize heldRight keys = r at h1 ⊢
  generalize heldLeft keys = l at h1 ⊢
  generalize heldUp keys = u at h2 ⊢
  generalize heldDown keys = d at h2 ⊢
  cases r <;> cases l <;> cases u <;> cases d <;> simp at h1 h2 <;> norm_num

theorem HandleInput_position_horizontal (c : Character) (keys : KeyboardKey → Bool) (dt : ℚ)
    (h1 : heldRight keys ≠ heldLeft keys) (hu : heldUp keys = false)
    (hd : heldDown keys = false) :
    (c.HandleInput keys dt).position =
      ⟨floatAdd c.position.x (floatMul (floatMul (if heldRight keys then 1 else -1) c.speed) dt),
       roundToFloat c.position.y⟩ := by
  rw [HandleInput_position, hu, hd]
  generalize heldRight keys = r at h1 ⊢
  generalize heldLeft keys = l at h1 ⊢
  cases r <;> cases l <;> simp at h1 <;>
    norm_num [floatAdd, floatMul, roundToFloat_zero]

theorem HandleInput_position_vertical (c : Character) (keys : KeyboardKey → Bool) (dt : ℚ)
    (h1 : heldUp keys ≠ heldDown keys) (hr : heldRight keys = false)
    (hl : heldLeft keys = false) :
    (c.HandleInput keys dt).position =
      ⟨roundToFloat c.position.x,
       floatAdd c.position.y
        (floatMul (floatMul (if heldDown keys then 1 else -1) c.speed) dt)⟩ := by
  rw [HandleInput_position, hr, hl]
  generalize heldUp keys = u at h1 ⊢
  generalize heldDown keys = d at h1 ⊢
  cases u <;> cases d <;> simp at h1 <;>
    norm_num [floatAdd, floatMul, roundToFloat_zero]

theorem diagonalStart_position :
    (diagonalStart.HandleInput keysRightDown (1 / 64)).position =
      ⟨13161505 / 32768, 9884705 / 32768⟩ := by
  rw [HandleInput_position_diagonal diagonalStart keysRightDown (1 / 64) (by decide) (by decide)]
  have hx : diagonalStart.position.x = 400 := rfl
  have hy : diagonalStart.position.y = 300 := rfl
  have hs : diagonalStart.speed = 150 := rfl
  have hr : heldRight keysRightDown = true := rfl
  have hd : heldDown keysRightDown = true := rfl
  have e1 : floatMul (1 * float0_7071) 150 = 13902151 / 131072 := by
    unfold floatMul
    rw [float0_7071_eq,
      roundToFloat_of_pos (1 * (11863169 / 16777216) * 150) 6 13902151 (by norm_num)
        (by norm_num) (by norm_num) (by norm_num) (by norm_num)]
    norm_num
  have e2 : floatMul (13902151 / 131072) (1 / 64) = 13902151 / 8388608 := by
    unfold floatMul
    rw [roundToFloat_of_pos (13902151 / 131072 * (1 / 64)) 0 13902151 (by norm_num)
        (by norm_num) (by norm_num) (by norm_num) (by norm_num)]
    norm_num
  have e3 : floatAdd 400 (13902151 / 8388608) = 13161505 / 32768 := by
    unfold floatAdd
    rw [roundToFloat_of_pos (400 + 13902151 / 8388608) 8 13161505 (by norm_num)
        (by norm_num) (by norm_num) (by norm_num) (by norm_num)]
    norm_num
  have e4 : floatAdd 300 (13902151 / 8388608) = 9884705 / 32768 := by
    unfold floatAdd
    rw [roundToFloat_of_pos (300 + 13902151 / 8388608) 8 9884705 (by norm_num)
        (by norm_num) (by norm_num) (by norm_num) (by norm_num)]
    norm_num
  rw [hx, hy, hs, hr, hd]
  simp only [if_true]
  rw [e1, e2, e3, e4]

theorem farStart_position_x :
    (farStart.HandleInput keysRightDown (1 / 64)).position.x = 100000000 := by
  rw [HandleInput_position_diagonal farStart keysRightDown (1 / 64) (by decide) (by decide)]
  have hx : farStart.position.x = 100000000 := rfl
  have hs : farStart.speed = 150 := rfl
  have hr : heldRight keysRightDown = true := rfl
  have e1 : floatMul (1 * float0_7071) 150 = 13902151 / 131072 := by
    unfold floatMul
    rw [float0_7071_eq,
      roundToFloat_of_pos (1 * (11863169 / 16777216) * 150) 6 13902151 (by norm_num)
        (by norm_num) (by norm_num) (by norm_num) (by norm_num)]
    norm_num
  have e2 : floatMul (13902151 / 131072) (1 / 64) = 13902151 / 8388608 := by
    unfold floatMul
    rw [roundToFloat_of_pos (13902151 / 131072 * (1 / 64)) 0 13902151 (by norm_num)
        (by norm_num) (by norm_num) (by norm_num) (by norm_num)]
    norm_num
  have e3 : floatAdd 100000000 (13902151 / 8388608) = 100000000 := by
    unfold floatAdd
    rw [roundToFloat_of_pos (100000000 + 13902151 / 8388608) 26 12500000 (by norm_num)
        (by norm_num) (by norm_num) (by norm_num) (by norm_num)]
    norm_num
  show floatAdd farStart.position.x
    (floatMul (floatMul ((if heldRight keysRightDown then 1 else -1) * float0_7071)
      farStart.speed) (1 / 64)) = 100000000
  rw [hx, hs, hr]
  simp only [if_true]
  rw [e1, e2, e3]

theorem float_inputs :
    IsFloat 400 ∧ IsFloat 300 ∧ IsFloat 150 ∧ IsFloat (1 / 64) ∧ IsFloat 100000000 := by
  unfold IsFloat
  refine ⟨?_, ?_, ?_, ?_, ?_⟩
  · rw [roundToFloat_of_pos 400 8 13107200 (by norm_num) (by norm_num) (by norm_num)
      (by norm_num) (by norm_num)]
    norm_num
  · rw [roundToFloat_of_pos 300 8 9830400 (by norm_num) (by norm_num) (by norm_num)
      (by norm_num) (by norm_num)]
    norm_num
  · rw [roundToFloat_of_pos 150 7 9830400 (by norm_num) (by norm_num) (by norm_num)
      (by norm_num) (by norm_num)]
    norm_num
  · rw [roundToFloat_of_pos (1 / 64) (-6) 8388608 (by norm_num) (by norm_num) (by norm_num)
      (by norm_num) (by norm_num)]
    norm_num
  · rw [roundToFloat_of_pos 100000000 26 12500000 (by norm_num) (by norm_num) (by norm_num)
      (by norm_num) (by norm_num)]
    norm_num

/-- C8 (counterexample): the player at (400, 300) with speed 150, D and S down
for 1/64 s (all of them floats).  `speed * dt * 0.7071` is 21213/12800
= 1.657265625, but the position changes by 54305/32768 = 1.657257... on each
axis: the products with `0.7071f` and the sum with the position are rounded.
From x = 100000000 the same step does not change `position.x` at all. -/
theorem C8_change_is_not_exact :
    (IsFloat 400 ∧ IsFloat 300 ∧ IsFloat 150 ∧ IsFloat (1 / 64) ∧ IsFloat 100000000) ∧
    diagonalStart.position = ⟨400, 300⟩ ∧ diagonalStart.speed = 150 ∧
    heldRight keysRightDown ≠ heldLeft keysRightDown ∧
    heldUp keysRightDown ≠ heldDown keysRightDown ∧
    |(diagonalStart.HandleInput keysRightDown (1 / 64)).position.x - diagonalStart.position.x|
      = 54305 / 32768 ∧
    |(diagonalStart.HandleInput keysRightDown (1 / 64)).position.y - diagonalStart.position.y|
      = 54305 / 32768 ∧
    diagonalStart.speed * (1 / 64) * (7071 / 10000) = 21213 / 12800 ∧
    |(diagonalStart.HandleInput keysRightDown (1 / 64)).position.x - diagonalStart.position.x|
      ≠ diagonalStart.speed * (1 / 64) * (7071 / 10000) ∧
    |(diagonalStart.HandleInput keysRightDown (1 / 64)).position.x - diagonalStart.position.x|
      ≠ diagonalStart.speed * (1 / 64) * float0_7071 ∧
    farStart.position.x = 100000000 ∧ farStart.speed = 150 ∧
    (farStart.HandleInput keysRightDown (1 / 64)).position.x = farStart.position.x := by
  have hp := diagonalStart_position
  have hx : diagonalStart.position.x = 400 := rfl
  have hy : diagonalStart.position.y = 300 := rfl
  have hs : diagonalStart.speed = 150 := rfl
  have dx : |(diagonalStart.HandleInput keysRightDown (1 / 64)).position.x
      - diagonalStart.position.x| = 54305 / 32768 := by
    rw [hp, hx]
    norm_num [abs_of_pos]
  have dy : |(diagonalStart.HandleInput keysRightDown (1 / 64)).position.y
      - diagonalStart.position.y| = 54305 / 32768 := by
    rw [hp, hy]
    norm_num [abs_of_pos]
  refine ⟨float_inputs, rfl, rfl, by decide, by decide, dx, dy, ?_, ?_, ?_, rfl, rfl, ?_⟩
  · rw [hs]; norm_num
  · rw [dx, hs]; norm_num
  · rw [dx, hs, float0_7071_eq]; norm_num
  · rw [farStart_position_x]
    rfl

/-- C8 (amended): with one horizontal and one vertical direction held,
`HandleInput` sets each coordinate to the float sum of the old coordinate and
the float product `((+-0.7071f) * speed) * dt`, signed by the held directions;
with a single direction held it sets that coordinate to the float sum of the
old one and the float product `((+-1) * speed) * dt` and leaves the other
coordinate as it is (a position that is a float is unchanged).  The factor
`0.7071f` is the float 11863169 / 2^24. -/
theorem C8_HandleInput_movement (c : Character) (keys : KeyboardKey → Bool) (dt : ℚ) :
    (heldRight keys ≠ heldLeft keys → heldUp keys ≠ heldDown keys →
      (c.HandleInput keys dt).position.x =
        floatAdd c.position.x
          (floatMul (floatMul ((if heldRight keys then 1 else -1) * float0_7071) c.speed) dt) ∧
      (c.HandleInput keys dt).position.y =
        floatAdd c.position.y
          (floatMul (floatMul ((if heldDown keys then 1 else -1) * float0_7071) c.speed) dt)) ∧
    (heldRight keys ≠ heldLeft keys → heldUp keys = false → heldDown keys = false →
      (c.HandleInput keys dt).position.x =
        floatAdd c.position.x
          (floatMul (floatMul (if heldRight keys then 1 else -1) c.speed) dt) ∧
      (c.HandleInput keys dt).position.y = roundToFloat c.position.y ∧
      (IsFloat c.position.y → (c.HandleInput keys dt).position.y = c.position.y)) ∧
    (heldUp keys ≠ heldDown keys → heldRight keys = false → heldLeft keys = false →
      (c.HandleInput keys dt).position.y =
        floatAdd c.position.y
          (floatMul (floatMul (if heldDown keys then 1 else -1) c.speed) dt) ∧
      (c.HandleInput keys dt).position.x = roundToFloat c.position.x ∧
      (IsFloat c.position.x → (c.HandleInput keys dt).position.x = c.position.x)) ∧
    float0_7071 = 11863169 / 16777216 := by
  refine ⟨?_, ?_, ?_, float0_7071_eq⟩
  · intro h1 h2
    rw [HandleInput_position_diagonal c keys dt h1 h2]
    exact ⟨rfl, rfl⟩
  · intro h1 hu hd
    rw [HandleInput_position_horizontal c keys dt h1 hu hd]
    exact ⟨rfl, rfl, fun h => h⟩
  · intro h1 hr hl
    rw [HandleInput_position_vertical c keys dt h1 hr hl]
    exact ⟨rfl, rfl, fun h => h⟩

/-- C8 (witness): the player at (400, 300) with speed 150, D and S down for
1/64 s. -/
theorem C8_HandleInput_movement_witness :
    heldRight keysRightDown ≠ heldLeft keysRightDown ∧
    heldUp keysRightDown ≠ heldDown keysRightDown ∧
    (diagonalStart.HandleInput keysRightDown (1 / 64)).position.x =
      floatAdd diagonalStart.position.x
        (floatMul (floatMul ((if heldRight keysRightDown then 1 else -1) * float0_7071)
          diagonalStart.speed) (1 / 64)) ∧
    (diagonalStart.HandleInput keysRightDown (1 / 64)).position.y =
      floatAdd diagonalStart.position.y
        (floatMul (floatMul ((if heldDown keysRightDown then 1 else -1) * float0_7071)
          diagonalStart.speed) (1 / 64)) :=
  ⟨by decide, by decide,
    ((C8_HandleInput_movement diagonalStart keysRightDown (1 / 64)).1
      (by decide) (by decide)).1,
    ((C8_HandleInput_movement diagonalStart keysRightDown (1 / 64)).1
      (by decide) (by decide)).2⟩

/-! ## C9: scale-linked collision rectangle -/

theorem SetScale_components (o : ImageObject) (s : ℚ) (ht : o.texture.id ≠ 0) :
    (o.SetScale s).collisionComponents =
      o.collisionComponents.map fun c =>
        if c.name = "texture_bounds" then
          { c with rect := { c.rect with
              width := (o.texture.width : ℚ) * s
              height := (o.texture.height : ℚ) * s } }
        else c := by
  simp [ImageObject.SetScale, ImageObject.UpdateCollisionComponents, ht]

theorem SetScale_SetScale (o : ImageObject) (a b : ℚ) :
    (o.SetScale a).SetScale b = o.SetScale b := by
  unfold ImageObject.SetScale ImageObject.UpdateCollisionComponents
  simp only [List.map_map]
  congr 2
  apply List.map_congr_left
  intro c _
  by_cases h : c.name = "texture_bounds" ∧ o.texture.id ≠ 0
  · simp [h]
  · simp [h]

/-- C9: for an ImageObject with a loaded texture of size (tw, th), after
`SetScale(s)` every component named "texture_bounds" has width `tw * s` and
height `th * s` with its offset and other fields unchanged, every other
component is unchanged, nothing is added or removed, and `SetScale(a)` followed
by `SetScale(b)` gives the same object as `SetScale(b)` alone. -/
theorem C9_SetScale_texture_bounds (o : ImageObject) (s : ℚ) (ht : o.texture.id ≠ 0) :
    (o.SetScale s).collisionComponents.length = o.collisionComponents.length ∧
    (∀ (i : Nat) (c : CollisionComponent), o.collisionComponents[i]? = some c →
      ∃ c', (o.SetScale s).collisionComponents[i]? = some c' ∧
        (c.name = "texture_bounds" →
          c'.rect.width = (o.texture.width : ℚ) * s ∧
          c'.rect.height = (o.texture.height : ℚ) * s ∧
          c'.rect.x = c.rect.x ∧ c'.rect.y = c.rect.y ∧
          c'.name = "texture_bounds" ∧ c'.isSolid = c.isSolid ∧
          c'.debugColor = c.debugColor ∧ c'.visible = c.visible) ∧
        (c.name ≠ "texture_bounds" → c' = c)) ∧
    (∀ a b : ℚ, (o.SetScale a).SetScale b = o.SetScale b) ∧
    (∀ a b : ℚ, ∀ c ∈ ((o.SetScale a).SetScale b).collisionComponents,
      c.name = "texture_bounds" →
        c.rect.width = (o.texture.width : ℚ) * b ∧ c.rect.height = (o.texture.height : ℚ) * b) ∧
    (o.SetScale s).texture = o.texture ∧ (o.SetScale s).scale = s ∧
    (o.SetScale s).position = o.position := by
  refine ⟨?_, ?_, SetScale_SetScale o, ?_, rfl, rfl, rfl⟩
  · rw [SetScale_components o s ht, List.length_map]
  · intro i c hc
    rw [SetScale_components o s ht, List.getElem?_map, hc]
    refine ⟨_, rfl, ?_, ?_⟩
    · intro hn
      simp [hn]
    · intro hn
      simp [hn]
  · intro a b c hc hn
    rw [SetScale_SetScale, SetScale_components o b ht, List.mem_map] at hc
    obtain ⟨c0, -, rfl⟩ := hc
    by_cases h0 : c0.name = "texture_bounds"
    · simp [h0]
    · simp [h0] at hn

/-- C9 (witness): the 64 x 64 rock of `main` scaled by 0.8 after a first
scaling by 2: the single component is 51.2 x 51.2. -/
theorem C9_SetScale_texture_bounds_witness :
    sampleRock.texture.id ≠ 0 ∧
    (∀ c ∈ ((sampleRock.SetScale 2).SetScale (4 / 5)).collisionComponents,
      c.name = "texture_bounds" →
        c.rect.width = (sampleRock.texture.width : ℚ) * (4 / 5) ∧
        c.rect.height = (sampleRock.texture.height : ℚ) * (4 / 5)) :=
  ⟨by decide, (C9_SetScale_texture_bounds sampleRock 1 (by decide)).2.2.2.1 2 (4 / 5)⟩

/-! ## C10: visibility does not gate collision -/

theorem checkOuterLoop_visible (p : Vector2) (b : GameObject) (w : Bool)
    (cs : List CollisionComponent) :
    GameObject.checkOuterLoop p (b.SetVisible w) cs = GameObject.checkOuterLoop p b cs := by
  induction cs with
  | nil => rfl
  | cons c rest ih =>
    simp only [GameObject.checkOuterLoop, ih]
    rfl

theorem CheckCollisionObject_visible (a b : GameObject) (v w : Bool) :
    (a.SetVisible v).CheckCollisionObject (b.SetVisible w) = a.CheckCollisionObject b := by
  unfold GameObject.CheckCollisionObject
  rw [checkOuterLoop_visible]
  rfl

theorem find_map_key (f : String × GameObject → String × GameObject)
    (hf : ∀ e, (f e).1 = e.1) (objs : List (String × GameObject)) (k : String) :
    (objs.map f).find? (fun entry => entry.1 == k) =
      (objs.find? (fun entry => entry.1 == k)).map f := by
  induction objs with
  | nil => rfl
  | cons e rest ih =>
    rw [List.map_cons, List.find?_cons, List.find?_cons]
    simp only [hf]
    cases e.1 == k
    · exact ih
    · rfl

theorem find_setVisible (objs : List (String × GameObject)) (id k : String) (v : Bool) :
    ((objs.map fun entry =>
        if entry.1 = id then (entry.1, entry.2.SetVisible v) else entry).find?
      (fun entry => entry.1 == k)).map Prod.snd =
    ((objs.find? (fun entry => entry.1 == k)).map Prod.snd).map
      (fun o => if k = id then o.SetVisible v else o) := by
  rw [find_map_key _ (fun e => by by_cases h : e.1 = id <;> simp [h])]
  cases hfind : objs.find? (fun entry => entry.1 == k) with
  | none => rfl
  | some e =>
    have hk : e.1 = k := by simpa using List.find?_some hfind
    simp only [Option.map_some', hk]
    by_cases h : k = id <;> simp [h]

theorem GetObject_setVisibleOf (sys : GameObjectSystem) (id k : String) (v : Bool) :
    (sys.setVisibleOf id v).GetObject k =
      (sys.GetObject k).map (fun o => if k = id then o.SetVisible v else o) :=
  find_setVisible sys.objects id k v

theorem CheckCollision_setVisibleOf (sys : GameObjectSystem) (id : String) (v : Bool)
    (k1 k2 : String) :
    (sys.setVisibleOf id v).CheckCollision k1 k2 = sys.CheckCollision k1 k2 := by
  unfold GameObjectSystem.CheckCollision
  rw [GetObject_setVisibleOf, GetObject_setVisibleOf]
  cases sys.GetObject k1 with
  | none => rfl
  | some o1 =>
    cases sys.GetObject k2 with
    | none => rfl
    | some o2 =>
      simp only [Option.map_some']
      by_cases h1 : k1 = id <;> by_cases h2 : k2 = id <;> simp only [h1, h2, if_true, if_false]
      · exact CheckCollisionObject_visible o1 o2 v v
      · have := CheckCollisionObject_visible o1 o2 v o2.visible
        simpa [GameObject.SetVisible] using this
      · have := CheckCollisionObject_visible o1 o2 o1.visible v
        simpa [GameObject.SetVisible] using this

theorem ids_setVisibleOf (sys : GameObjectSystem) (id : String) (v : Bool) :
    (sys.setVisibleOf id v).ids = sys.ids := by
  unfold GameObjectSystem.ids GameObjectSystem.setVisibleOf
  simp only [List.map_map]
  apply List.map_congr_left
  intro entry _
  by_cases hk : entry.1 = id <;> simp [hk]

theorem CheckAllCollisions_setVisibleOf {σ : Type} (sys : GameObjectSystem) (id : String)
    (v : Bool) (callback : String → String → σ → σ) (s : σ) :
    (sys.setVisibleOf id v).CheckAllCollisions callback s =
      sys.CheckAllCollisions callback s := by
  unfold GameObjectSystem.CheckAllCollisions
  simp only [ids_setVisibleOf, CheckCollision_setVisibleOf]

/-- C10: `CheckCollision` against a rectangle and against another object give
the same result whatever the `visible` flags of the objects are, and calling
`SetVisible` on a registered object changes neither the calls `CheckAllCollisions`
makes nor their order. -/
theorem C10_collision_ignores_visibility (a b : GameObject) (r : Rectangle) (v w : Bool)
    (sys : GameObjectSystem) (id : String) :
    (a.SetVisible v).CheckCollision r = a.CheckCollision r ∧
    (a.SetVisible v).CheckCollisionObject (b.SetVisible w) = a.CheckCollisionObject b ∧
    (∀ k1 k2, (sys.setVisibleOf id v).CheckCollision k1 k2 = sys.CheckCollision k1 k2) ∧
    (sys.setVisibleOf id v).collisionCalls = sys.collisionCalls ∧
    (∀ (σ : Type) (callback : String → String → σ → σ) (s : σ),
      (sys.setVisibleOf id v).CheckAllCollisions callback s =
        sys.CheckAllCollisions callback s) :=
  ⟨rfl, CheckCollisionObject_visible a b v w, CheckCollision_setVisibleOf sys id v,
    CheckAllCollisions_setVisibleOf sys id v _ _,
    fun _ callback s => CheckAllCollisions_setVisibleOf sys id v callback s⟩

/-! ## C11: non-solid components and the sweep -/

theorem mem_collisionCalls_overlap (sys : GameObjectSystem) (a b : String) :
    (a, b) ∈ sys.collisionCalls ↔
      ∃ i j, i < j ∧ j < sys.objects.length ∧ a = sys.ids.getD i "" ∧ b = sys.ids.getD j "" ∧
        SolidOverlap (sys.objectAt i) (sys.objectAt j) := by
  rw [mem_collisionCalls, ids_length]
  constructor
  · rintro ⟨i, j, h1, h2, h3, ha, hb⟩
    exact ⟨i, j, h1, h2, ha, hb, (CheckCollision_ids sys i j (by omega) h2).mp h3⟩
  · rintro ⟨i, j, h1, h2, ha, hb, h3⟩
    exact ⟨i, j, h1, h2, (CheckCollision_ids sys i j (by omega) h2).mpr h3, ha, hb⟩

theorem not_solidOverlap_of_no_solid (a b : GameObject)
    (h : ∀ c ∈ a.collisionComponents, c.isSolid = false) :
    ¬ SolidOverlap a b ∧ ¬ SolidOverlap b a := by
  constructor
  · rintro ⟨c1, hc1, hs1, -⟩
    rw [h c1 hc1] at hs1
    cases hs1
  · rintro ⟨-, -, -, c2, hc2, hs2, -⟩
    rw [h c2 hc2] at hs2
    cases hs2

/-- C11 (counterexample): a non-solid 10 x 10 zone at (0, 0) and a solid
10 x 10 box at (5, 5) overlap in a 5 x 5 square, and the sweep of the registry
holding the two makes no call. -/
theorem C11_trigger_overlap_not_reported :
    (∃ c1 ∈ (sampleTrigger "a" 0 0).collisionComponents, c1.isSolid = false ∧
      ∃ c2 ∈ (sampleBox "b" 5 5).collisionComponents,
        PositiveOverlap (GameObject.worldRect (sampleTrigger "a" 0 0).position c1)
          (GameObject.worldRect (sampleBox "b" 5 5).position c2)) ∧
    triggerRegistry.objects = [("a", sampleTrigger "a" 0 0), ("b", sampleBox "b" 5 5)] ∧
    triggerRegistry.collisionCalls = [] := by
  refine ⟨?_, rfl, ?_⟩
  · refine ⟨CollisionComponent.mk4 ⟨0, 0, 10, 10⟩ YELLOW false "zone", ?_, rfl,
      CollisionComponent.mk4 ⟨0, 0, 10, 10⟩ RED true "box", ?_, ?_⟩
    · simp [sampleTrigger]
    · simp [sampleBox]
    · norm_num [PositiveOverlap, overlapX, overlapY, GameObject.worldRect, sampleTrigger,
        sampleBox, CollisionComponent.mk4]
  · simp [GameObjectSystem.collisionCalls, GameObjectSystem.CheckAllCollisions,
      GameObjectSystem.ids, triggerRegistry, List.range_succ, GameObjectSystem.CheckCollision,
      GameObjectSystem.GetObject, sampleBox, sampleTrigger, GameObject.CheckCollisionObject,
      GameObject.checkOuterLoop, GameObject.checkInnerLoop, CollisionComponent.mk4]

/-- C11 (amended): the sweep tests solid components only.  It calls back for
the ids `(a, b)` exactly when they stand at positions `i < j` of the registry
and some solid component of the one object overlaps some solid component of the
other; an object all of whose components are non-solid is in no reported pair,
whatever its components overlap. -/
theorem C11_sweep_tests_solid_only (sys : GameObjectSystem) :
    (∀ a b, (a, b) ∈ sys.collisionCalls ↔
      ∃ i j, i < j ∧ j < sys.objects.length ∧ a = sys.ids.getD i "" ∧ b = sys.ids.getD j "" ∧
        ∃ c1 ∈ (sys.objectAt i).collisionComponents, c1.isSolid = true ∧
          ∃ c2 ∈ (sys.objectAt j).collisionComponents, c2.isSolid = true ∧
            CheckCollisionRecs (GameObject.worldRect (sys.objectAt i).position c1)
              (GameObject.worldRect (sys.objectAt j).position c2) = true) ∧
    (∀ k, k < sys.objects.length →
      (∀ c ∈ (sys.objectAt k).collisionComponents, c.isSolid = false) →
      ∀ other, (sys.ids.getD k "", other) ∉ sys.collisionCalls ∧
        (other, sys.ids.getD k "") ∉ sys.collisionCalls) := by
  refine ⟨fun a b => mem_collisionCalls_overlap sys a b, ?_⟩
  intro k hk hns other
  constructor
  · intro hmem
    obtain ⟨i, j, hij, hj, ha, -, hov⟩ := (mem_collisionCalls_overlap sys _ _).mp hmem
    have hik : k = i := ids_getD_inj sys (by rw [ids_length]; exact hk)
      (by rw [ids_length]; omega) ha
    subst hik
    exact (not_solidOverlap_of_no_solid _ _ hns).1 hov
  · intro hmem
    obtain ⟨i, j, hij, hj, -, hb, hov⟩ := (mem_collisionCalls_overlap sys _ _).mp hmem
    have hjk : k = j := ids_getD_inj sys (by rw [ids_length]; exact hk)
      (by rw [ids_length]; exact hj) hb
    subst hjk
    exact (not_solidOverlap_of_no_solid _ _ hns).2 hov

/-- C11 (witness): position 0 of the trigger registry holds the zone, whose
only component is non-solid. -/
theorem C11_sweep_tests_solid_only_witness :
    0 < triggerRegistry.objects.length ∧
    (∀ c ∈ (triggerRegistry.objectAt 0).collisionComponents, c.isSolid = false) ∧
    (∀ other, (triggerRegistry.ids.getD 0 "", other) ∉ triggerRegistry.collisionCalls ∧
      (other, triggerRegistry.ids.getD 0 "") ∉ triggerRegistry.collisionCalls) :=
  have h0 : 0 < triggerRegistry.objects.length := by decide
  have hns : ∀ c ∈ (triggerRegistry.objectAt 0).collisionComponents, c.isSolid = false := by
    intro c hc
    have : c = CollisionComponent.mk4 ⟨0, 0, 10, 10⟩ YELLOW false "zone" := by
      simpa [GameObjectSystem.objectAt, triggerRegistry, sampleTrigger] using hc
    rw [this]; rfl
  ⟨h0, hns, (C11_sweep_tests_solid_only triggerRegistry).2 0 h0 hns⟩

/-! ## C12: the frame index stays in range -/

theorem reachable_frame_range (c : Character) (h : Reachable c) :
    c.framesPerDirection = 4 ∧ 0 ≤ c.currentFrame ∧ c.currentFrame ≤ 3 := by
  induction h with
  | construct objId =>
    refine ⟨rfl, ?_, ?_⟩
    · show (0 : Int) ≤ 0
      decide
    · show (0 : Int) ≤ 3
      decide
  | handleInput keys frameTime _ ih =>
    obtain ⟨-, -, hf, -, -, hn⟩ := HandleInput_state_direction _ keys frameTime
    rw [hf, hn]
    exact ih
  | @update c deltaTime _ ih =>
    obtain ⟨h4, h0, h3⟩ := ih
    by_cases hw : c.currentState = AnimationState.WALKING
    · rw [Update_walking c deltaTime hw]
      split
      · refine ⟨h4, ?_, ?_⟩
        · show 0 ≤ Int.tmod (c.currentFrame + 1) c.framesPerDirection
          rw [h4, Int.tmod_eq_emod (by omega) (by decide)]
          omega
        · show Int.tmod (c.currentFrame + 1) c.framesPerDirection ≤ 3
          rw [h4, Int.tmod_eq_emod (by omega) (by decide)]
          omega
      · exact ⟨h4, h0, h3⟩
    · simp only [Character.Update, Character.UpdateAnimation, if_neg hw]
      exact ⟨h4, le_refl 0, by decide⟩
  | resolveCollision _ ih => exact ih
  | checkWorldBounds worldSize _ ih =>
    unfold Character.CheckWorldBounds
    simp only []
    split_ifs <;> exact ih
  | setPosition newPos _ ih => exact ih
  | setSpeed newSpeed _ ih => exact ih
  | setAnimationSpeed newSpeed _ ih => exact ih
  | setSpriteLayout down left right up _ ih => exact ih
  | loadCharacterSheet loaded fallback _ ih =>
    unfold Character.LoadCharacterSheet
    simp only []
    split <;> exact ih

/-- C12: in every Character state reachable from construction by the public
operations, `0 <= currentFrame <= framesPerDirection - 1`, with
`framesPerDirection = 4`. -/
theorem C12_currentFrame_in_range (c : Character) (h : Reachable c) :
    0 ≤ c.currentFrame ∧ c.currentFrame ≤ c.framesPerDirection - 1 ∧
    c.framesPerDirection = 4 := by
  obtain ⟨h4, h0, h3⟩ := reachable_frame_range c h
  refine ⟨h0, ?_, h4⟩
  rw [h4]
  exact h3

/-- C12 (witness): the player constructed, given a sheet, moved down for a
frame and animated for 0.2 s. -/
theorem C12_currentFrame_in_range_witness :
    Reachable (((((Character.new "player").LoadCharacterSheet ⟨1, 256, 256⟩ ⟨2, 64, 64⟩).1
      ).HandleInput keysDown (1 / 60)).Update (1 / 5)) ∧
    0 ≤ (((((Character.new "player").LoadCharacterSheet ⟨1, 256, 256⟩ ⟨2, 64, 64⟩).1
      ).HandleInput keysDown (1 / 60)).Update (1 / 5)).currentFrame ∧
    (((((Character.new "player").LoadCharacterSheet ⟨1, 256, 256⟩ ⟨2, 64, 64⟩).1
      ).HandleInput keysDown (1 / 60)).Update (1 / 5)).currentFrame ≤
      (((((Character.new "player").LoadCharacterSheet ⟨1, 256, 256⟩ ⟨2, 64, 64⟩).1
      ).HandleInput keysDown (1 / 60)).Update (1 / 5)).framesPerDirection - 1 :=
  have hr : Reachable (((((Character.new "player").LoadCharacterSheet ⟨1, 256, 256⟩
      ⟨2, 64, 64⟩).1).HandleInput keysDown (1 / 60)).Update (1 / 5)) :=
    Reachable.update _ (Reachable.handleInput _ _
      (Reachable.loadCharacterSheet _ _ (Reachable.construct "player")))
  ⟨hr, (C12_currentFrame_in_range _ hr).1, (C12_currentFrame_in_range _ hr).2.1⟩

/-! ## C13: the callback of `main` -/


theorem CheckAllCollisionsMut_const {σ : Type} (sys : GameObjectSystem)
    (callback : String → String → σ → σ) (s : σ) :
    CheckAllCollisionsMut (fun _ => sys) callback s = sys.CheckAllCollisions callback s :=
  rfl

theorem CheckAllCollisionsMut_four {σ : Type} (registry : σ → GameObjectSystem)
    (callback : String → String → σ → σ) (s : σ) (a b c d : String)
    (h : (registry s).ids = [a, b, c, d]) :
    CheckAllCollisionsMut registry callback s =
      sweepStep registry callback c d
        (sweepStep registry callback b d
          (sweepStep registry callback b c
            (sweepStep registry callback a d
              (sweepStep registry callback a c
                (sweepStep registry callback a b s))))) := by
  unfold CheckAllCollisionsMut
  simp only [h]
  rfl

theorem sampleScene_objects :
    sampleScene.coin.toGameObject =
      { id := "coin1", position := ⟨300, 500⟩, visible := true,
        collisionComponents :=
          [CollisionComponent.mk4 ⟨0, 0, 32, 32⟩ GREEN true "texture_bounds",
           CollisionComponent.mk4 ⟨5, 5, 20, 20⟩ YELLOW false "coin_area"] } ∧
    sampleScene.obstacle1.toGameObject =
      { id := "rock1", position := ⟨200, 200⟩, visible := true,
        collisionComponents :=
          [CollisionComponent.mk4 ⟨0, 0, 256 / 5, 256 / 5⟩ GREEN true "texture_bounds",
           CollisionComponent.mk4 ⟨10, 10, 40, 40⟩ RED true "rock_collision"] } ∧
    sampleScene.obstacle2.toGameObject =
      { id := "tree1", position := ⟨600, 400⟩, visible := true,
        collisionComponents :=
          [CollisionComponent.mk4 ⟨0, 0, 384 / 5, 384 / 5⟩ GREEN true "texture_bounds",
           CollisionComponent.mk4 ⟨15, 60, 30, 20⟩ BLUE true "tree_trunk"] } := by
  refine ⟨?_, ?_, ?_⟩ <;>
  · simp [sampleScene, mainScene, ImageObject.new, ImageObject.SetPosition, ImageObject.SetScale,
      ImageObject.UpdateCollisionComponents, ImageObject.AddCollisionComponent,
      GameObject.AddCollisionComponent, GameObject.new, CollisionComponent.mk4]
    try norm_num

theorem roundToFloat_10 : roundToFloat 10 = 10 := by
  rw [roundToFloat_of_pos 10 3 10485760 (by norm_num) (by norm_num) (by norm_num) (by norm_num)
    (by norm_num)]
  norm_num

theorem roundToFloat_150 : roundToFloat 150 = 150 := by
  rw [roundToFloat_of_pos 150 7 9830400 (by norm_num) (by norm_num) (by norm_num) (by norm_num)
    (by norm_num)]
  norm_num

theorem roundToFloat_190 : roundToFloat 190 = 190 := by
  rw [roundToFloat_of_pos 190 7 12451840 (by norm_num) (by norm_num) (by norm_num) (by norm_num)
    (by norm_num)]
  norm_num

theorem roundToFloat_200 : roundToFloat 200 = 200 := by
  rw [roundToFloat_of_pos 200 7 13107200 (by norm_num) (by norm_num) (by norm_num) (by norm_num)
    (by norm_num)]
  norm_num

theorem roundToFloat_310 : roundToFloat 310 = 310 := by
  rw [roundToFloat_of_pos 310 8 10158080 (by norm_num) (by norm_num) (by norm_num) (by norm_num)
    (by norm_num)]
  norm_num

theorem roundToFloat_475 : roundToFloat 475 = 475 := by
  rw [roundToFloat_of_pos 475 8 15564800 (by norm_num) (by norm_num) (by norm_num) (by norm_num)
    (by norm_num)]
  norm_num

theorem movedOntoCoin_player :
    movedOntoCoin.player.toGameObject =
      { id := "player", position := ⟨310, 475⟩, visible := true,
        collisionComponents :=
          [CollisionComponent.mk4 ⟨-16, 16, 32, 16⟩ RED true "character_feet"] } ∧
    movedOntoCoin.player.oldPosition = ⟨310, 465⟩ := by
  constructor <;>
  · simp [movedOntoCoin, sceneAboveCoin, sampleScene, mainScene, Character.SetPosition,
      Character.SetSpeed, Character.SetAnimationSpeed, Character.SetSpriteLayout,
      Character.LoadCharacterSheet, Character.new, GameObject.new, Character.HandleInput,
      keysDown, Character.Update, Character.UpdateAnimation, Character.CheckWorldBounds,
      Character.GetBounds, CollisionComponent.mk4, floatAdd, floatMul, roundToFloat_zero,
      roundToFloat_one]
    try norm_num [Int.tdiv, roundToFloat_10, roundToFloat_150, roundToFloat_310,
      roundToFloat_475]

theorem gameObjects_CheckCollision (s : GameState) :
    s.gameObjects.CheckCollision "coin1" "player" =
      s.coin.toGameObject.CheckCollisionObject s.player.toGameObject ∧
    s.gameObjects.CheckCollision "coin1" "rock1" =
      s.coin.toGameObject.CheckCollisionObject s.obstacle1.toGameObject ∧
    s.gameObjects.CheckCollision "coin1" "tree1" =
      s.coin.toGameObject.CheckCollisionObject s.obstacle2.toGameObject ∧
    s.gameObjects.CheckCollision "player" "rock1" =
      s.player.toGameObject.CheckCollisionObject s.obstacle1.toGameObject ∧
    s.gameObjects.CheckCollision "player" "tree1" =
      s.player.toGameObject.CheckCollisionObject s.obstacle2.toGameObject ∧
    s.gameObjects.CheckCollision "rock1" "tree1" =
      s.obstacle1.toGameObject.CheckCollisionObject s.obstacle2.toGameObject :=
  ⟨rfl, rfl, rfl, rfl, rfl, rfl⟩

theorem mainCallback_coin_player (s : GameState) :
    mainCallback "coin1" "player" s =
      { s with collisionOccurred := true, collisionInfo := "碰撞: coin1 ↔ player" } := by
  unfold mainCallback
  rw [if_neg (by decide)]
  rfl

theorem movedOntoCoin_checks :
    movedOntoCoin.coin.toGameObject.CheckCollisionObject movedOntoCoin.player.toGameObject
      = true ∧
    movedOntoCoin.coin.toGameObject.CheckCollisionObject movedOntoCoin.obstacle1.toGameObject
      = false ∧
    movedOntoCoin.coin.toGameObject.CheckCollisionObject movedOntoCoin.obstacle2.toGameObject
      = false ∧
    movedOntoCoin.player.toGameObject.CheckCollisionObject movedOntoCoin.obstacle1.toGameObject
      = false ∧
    movedOntoCoin.player.toGameObject.CheckCollisionObject movedOntoCoin.obstacle2.toGameObject
      = false ∧
    movedOntoCoin.obstacle1.toGameObject.CheckCollisionObject movedOntoCoin.obstacle2.toGameObject
      = false := by
  have hc : movedOntoCoin.coin = sampleScene.coin := rfl
  have h1 : movedOntoCoin.obstacle1 = sampleScene.obstacle1 := rfl
  have h2 : movedOntoCoin.obstacle2 = sampleScene.obstacle2 := rfl
  obtain ⟨ec, e1, e2⟩ := sampleScene_objects
  rw [hc, h1, h2, ec, e1, e2, movedOntoCoin_player.1]
  refine ⟨?_, ?_, ?_, ?_, ?_, ?_⟩ <;>
    norm_num [GameObject.CheckCollisionObject, GameObject.checkOuterLoop,
      GameObject.checkInnerLoop, CollisionComponent.mk4, CheckCollisionRecs,
      GameObject.worldRect]

theorem mainSweep_eq (s : GameState) :
    mainSweep s =
      sweepStep loggedRegistry loggedCallback "rock1" "tree1"
        (sweepStep loggedRegistry loggedCallback "player" "tree1"
          (sweepStep loggedRegistry loggedCallback "player" "rock1"
            (sweepStep loggedRegistry loggedCallback "coin1" "tree1"
              (sweepStep loggedRegistry loggedCallback "coin1" "rock1"
                (sweepStep loggedRegistry loggedCallback "coin1" "player" (s, [])))))) :=
  CheckAllCollisionsMut_four loggedRegistry loggedCallback (s, []) "coin1" "player" "rock1"
    "tree1" rfl

theorem sweepStep_hit (id1 id2 : String) (st : GameState × List (String × String))
    (h : st.1.gameObjects.CheckCollision id1 id2 = true) :
    sweepStep loggedRegistry loggedCallback id1 id2 st =
      (mainCallback id1 id2 st.1, st.2 ++ [(id1, id2)]) := by
  unfold sweepStep
  rw [if_pos (show (loggedRegistry st).CheckCollision id1 id2 = true from h)]
  rfl

theorem sweepStep_miss (id1 id2 : String) (st : GameState × List (String × String))
    (h : st.1.gameObjects.CheckCollision id1 id2 = false) :
    sweepStep loggedRegistry loggedCallback id1 id2 st = st := by
  unfold sweepStep
  rw [if_neg (by rw [show (loggedRegistry st).CheckCollision id1 id2 = false from h]; decide)]

theorem mainSweep_fst (s : GameState) :
    (mainSweep s).1 = CheckAllCollisionsMut GameState.gameObjects mainCallback s := by
  have step : ∀ (id1 id2 : String) (st : GameState × List (String × String)),
      (sweepStep loggedRegistry loggedCallback id1 id2 st).1 =
      sweepStep GameState.gameObjects mainCallback id1 id2 st.1 := by
    intro id1 id2 st
    unfold sweepStep loggedRegistry loggedCallback
    split <;> rfl
  rw [mainSweep_eq, CheckAllCollisionsMut_four GameState.gameObjects mainCallback s "coin1"
    "player" "rock1" "tree1" rfl]
  simp only [step]

theorem mainSweep_movedOntoCoin :
    mainSweep movedOntoCoin = (coinPairReported, [("coin1", "player")]) := by
  have e1 : sweepStep loggedRegistry loggedCallback "coin1" "player" (movedOntoCoin, []) =
      (coinPairReported, [("coin1", "player")]) := by
    rw [sweepStep_hit "coin1" "player" (movedOntoCoin, []) movedOntoCoin_checks.1,
      mainCallback_coin_player]
    rfl
  rw [mainSweep_eq, e1,
    sweepStep_miss "coin1" "rock1" (coinPairReported, [("coin1", "player")])
      movedOntoCoin_checks.2.1,
    sweepStep_miss "coin1" "tree1" (coinPairReported, [("coin1", "player")])
      movedOntoCoin_checks.2.2.1,
    sweepStep_miss "player" "rock1" (coinPairReported, [("coin1", "player")])
      movedOntoCoin_checks.2.2.2.1,
    sweepStep_miss "player" "tree1" (coinPairReported, [("coin1", "player")])
      movedOntoCoin_checks.2.2.2.2.1,
    sweepStep_miss "rock1" "tree1" (coinPairReported, [("coin1", "player")])
      movedOntoCoin_checks.2.2.2.2.2]

theorem mainFrame_sceneAboveCoin : mainFrame keysDown (1 / 15) sceneAboveCoin = coinPairReported := by
  have h : CheckAllCollisionsMut GameState.gameObjects mainCallback movedOntoCoin =
      coinPairReported := by
    rw [← mainSweep_fst, mainSweep_movedOntoCoin]
  show (if (CheckAllCollisionsMut GameState.gameObjects mainCallback movedOntoCoin).collisionOccurred
      then CheckAllCollisionsMut GameState.gameObjects mainCallback movedOntoCoin
      else { CheckAllCollisionsMut GameState.gameObjects mainCallback movedOntoCoin with
        collisionInfo := "无碰撞" }) = coinPairReported
  rw [h]
  rfl

/-- C13 (the code at the failing input): the sweep passes the player/coin pair
as ("coin1", "player"); for these arguments the callback only writes the status
line, so after a frame in which the player steps from (310, 465) onto the coin
the position is still the new one, the coin is still visible and the score is
still 0.  With "player" as first argument the callback does revert the
position. -/
theorem C13_coin_pair_skips_player_branch :
    (∀ s : GameState, mainCallback "coin1" "player" s =
      { s with collisionOccurred := true, collisionInfo := "碰撞: coin1 ↔ player" }) ∧
    (mainSweep movedOntoCoin).2 = [("coin1", "player")] ∧
    sceneAboveCoin.player.position = ⟨310, 465⟩ ∧
    sceneAboveCoin.coin.visible = true ∧
    sceneAboveCoin.score = 0 ∧
    (mainFrame keysDown (1 / 15) sceneAboveCoin).player.oldPosition = ⟨310, 465⟩ ∧
    (mainFrame keysDown (1 / 15) sceneAboveCoin).player.position = ⟨310, 475⟩ ∧
    (mainFrame keysDown (1 / 15) sceneAboveCoin).coin.visible = true ∧
    (mainFrame keysDown (1 / 15) sceneAboveCoin).score = 0 ∧
    (mainFrame keysDown (1 / 15) sceneAboveCoin).collisionInfo = "碰撞: coin1 ↔ player" ∧
    (∀ s : GameState,
      (mainCallback "player" "rock1" s).player.position = s.player.oldPosition ∧
      (mainCallback "player" "tree1" s).player.position = s.player.oldPosition) := by
  refine ⟨mainCallback_coin_player, ?_, rfl, rfl, rfl, ?_, ?_, ?_, ?_, ?_, ?_⟩
  · rw [mainSweep_movedOntoCoin]
  · rw [mainFrame_sceneAboveCoin]
    exact movedOntoCoin_player.2
  · rw [mainFrame_sceneAboveCoin]
    show movedOntoCoin.player.toGameObject.position = _
    rw [movedOntoCoin_player.1]
  · rw [mainFrame_sceneAboveCoin]
    rfl
  · rw [mainFrame_sceneAboveCoin]
    rfl
  · rw [mainFrame_sceneAboveCoin]
    rfl
  · intro s
    have h1 : (stdFind "player" "coin").isSome = false := by decide
    have h2 : (stdFind "rock1" "coin").isSome = false := by decide
    have h3 : (stdFind "tree1" "coin").isSome = false := by decide
    simp [mainCallback, h1, h2, h3, Character.ResolveCollision]

theorem mainCallback_player_rock (s : GameState) :
    mainCallback "player" "rock1" s =
      { s with
        collisionOccurred := true
        collisionInfo := "碰撞: player ↔ rock1"
        player := s.player.ResolveCollision } := by
  unfold mainCallback
  rw [if_pos (Or.inl rfl)]
  have h1 : (stdFind "player" "coin").isSome = false := by decide
  have h2 : (stdFind "rock1" "coin").isSome = false := by decide
  simp only [h1, h2, Bool.false_eq_true, if_false]
  rfl

theorem movedOntoRock_player :
    movedOntoRock.player.toGameObject =
      { id := "player", position := ⟨190, 200⟩, visible := true,
        collisionComponents :=
          [CollisionComponent.mk4 ⟨-16, 16, 32, 16⟩ RED true "character_feet"] } ∧
    movedOntoRock.player.oldPosition = ⟨180, 200⟩ := by
  constructor <;>
  · simp [movedOntoRock, sceneLeftOfRock, sampleScene, mainScene, Character.SetPosition,
      Character.SetSpeed, Character.SetAnimationSpeed, Character.SetSpriteLayout,
      Character.LoadCharacterSheet, Character.new, GameObject.new, Character.HandleInput,
      keysRight, Character.Update, Character.UpdateAnimation, Character.CheckWorldBounds,
      Character.GetBounds, CollisionComponent.mk4, floatAdd, floatMul, roundToFloat_zero,
      roundToFloat_one]
    try norm_num [Int.tdiv, roundToFloat_10, roundToFloat_150, roundToFloat_190,
      roundToFloat_200]

theorem rockPairReported_player :
    rockPairReported.player.toGameObject =
      { id := "player", position := ⟨180, 200⟩, visible := true,
        collisionComponents :=
          [CollisionComponent.mk4 ⟨-16, 16, 32, 16⟩ RED true "character_feet"] } := by
  show ({ movedOntoRock.player.toGameObject with position := movedOntoRock.player.oldPosition } :
    GameObject) = _
  rw [movedOntoRock_player.1, movedOntoRock_player.2]

theorem movedOntoRock_checks :
    movedOntoRock.coin.toGameObject.CheckCollisionObject movedOntoRock.player.toGameObject
      = false ∧
    movedOntoRock.coin.toGameObject.CheckCollisionObject movedOntoRock.obstacle1.toGameObject
      = false ∧
    movedOntoRock.coin.toGameObject.CheckCollisionObject movedOntoRock.obstacle2.toGameObject
      = false ∧
    movedOntoRock.player.toGameObject.CheckCollisionObject movedOntoRock.obstacle1.toGameObject
      = true ∧
    rockPairReported.player.toGameObject.CheckCollisionObject
      rockPairReported.obstacle2.toGameObject = false ∧
    rockPairReported.obstacle1.toGameObject.CheckCollisionObject
      rockPairReported.obstacle2.toGameObject = false := by
  have hc : movedOntoRock.coin = sampleScene.coin := rfl
  have h1 : movedOntoRock.obstacle1 = sampleScene.obstacle1 := rfl
  have h2 : movedOntoRock.obstacle2 = sampleScene.obstacle2 := rfl
  have k1 : rockPairReported.obstacle1 = sampleScene.obstacle1 := rfl
  have k2 : rockPairReported.obstacle2 = sampleScene.obstacle2 := rfl
  obtain ⟨ec, e1, e2⟩ := sampleScene_objects
  rw [hc, h1, h2, k1, k2, ec, e1, e2, movedOntoRock_player.1, rockPairReported_player]
  refine ⟨?_, ?_, ?_, ?_, ?_, ?_⟩ <;>
    norm_num [GameObject.CheckCollisionObject, GameObject.checkOuterLoop,
      GameObject.checkInnerLoop, CollisionComponent.mk4, CheckCollisionRecs,
      GameObject.worldRect]

theorem mainSweep_movedOntoRock :
    mainSweep movedOntoRock = (rockPairReported, [("player", "rock1")]) := by
  have e4 : sweepStep loggedRegistry loggedCallback "player" "rock1" (movedOntoRock, []) =
      (rockPairReported, [("player", "rock1")]) := by
    rw [sweepStep_hit "player" "rock1" (movedOntoRock, []) movedOntoRock_checks.2.2.2.1,
      mainCallback_player_rock]
    rfl
  rw [mainSweep_eq,
    sweepStep_miss "coin1" "player" (movedOntoRock, []) movedOntoRock_checks.1,
    sweepStep_miss "coin1" "rock1" (movedOntoRock, []) movedOntoRock_checks.2.1,
    sweepStep_miss "coin1" "tree1" (movedOntoRock, []) movedOntoRock_checks.2.2.1,
    e4,
    sweepStep_miss "player" "tree1" (rockPairReported, [("player", "rock1")])
      movedOntoRock_checks.2.2.2.2.1,
    sweepStep_miss "rock1" "tree1" (rockPairReported, [("player", "rock1")])
      movedOntoRock_checks.2.2.2.2.2]

/-- The sibling path: in a frame in which the player steps from (180, 200) onto
the rock the pair arrives as ("player", "rock1") and the position is reverted. -/
theorem mainFrame_sceneLeftOfRock :
    (mainSweep movedOntoRock).2 = [("player", "rock1")] ∧
    mainFrame keysRight (1 / 15) sceneLeftOfRock = rockPairReported ∧
    movedOntoRock.player.position = ⟨190, 200⟩ ∧
    rockPairReported.player.position = ⟨180, 200⟩ ∧
    rockPairReported.score = 0 := by
  have h : CheckAllCollisionsMut GameState.gameObjects mainCallback movedOntoRock =
      rockPairReported := by
    rw [← mainSweep_fst, mainSweep_movedOntoRock]
  refine ⟨by rw [mainSweep_movedOntoRock], ?_, ?_, ?_, rfl⟩
  · show (if (CheckAllCollisionsMut GameState.gameObjects mainCallback
          movedOntoRock).collisionOccurred
        then CheckAllCollisionsMut GameState.gameObjects mainCallback movedOntoRock
        else { CheckAllCollisionsMut GameState.gameObjects mainCallback movedOntoRock with
          collisionInfo := "无碰撞" }) = rockPairReported
    rw [h]
    rfl
  · show movedOntoRock.player.toGameObject.position = _
    rw [movedOntoRock_player.1]
  · show rockPairReported.player.toGameObject.position = _
    rw [rockPairReported_player]

/-! ## C14: object-versus-object collision is symmetric -/

theorem CheckCollisionRecs_comm (a b : Rectangle) :
    CheckCollisionRecs a b = CheckCollisionRecs b a := by
  rw [Bool.eq_iff_iff, CheckCollisionRecs_iff, CheckCollisionRecs_iff]
  constructor
  · rintro ⟨⟨h1, h2⟩, h3, h4⟩
    exact ⟨⟨h2, h1⟩, h4, h3⟩
  · rintro ⟨⟨h1, h2⟩, h3, h4⟩
    exact ⟨⟨h2, h1⟩, h4, h3⟩

theorem SolidOverlap_comm (a b : GameObject) : SolidOverlap a b ↔ SolidOverlap b a := by
  constructor
  · rintro ⟨c1, h1, s1, c2, h2, s2, h⟩
    exact ⟨c2, h2, s2, c1, h1, s1, by rw [CheckCollisionRecs_comm]; exact h⟩
  · rintro ⟨c1, h1, s1, c2, h2, s2, h⟩
    exact ⟨c2, h2, s2, c1, h1, s1, by rw [CheckCollisionRecs_comm]; exact h⟩

theorem CheckCollisionObject_comm (a b : GameObject) :
    a.CheckCollisionObject b = b.CheckCollisionObject a := by
  rw [Bool.eq_iff_iff, CheckCollisionObject_iff, CheckCollisionObject_iff]
  exact SolidOverlap_comm a b

theorem CheckCollision_comm (sys : GameObjectSystem) (id1 id2 : String) :
    sys.CheckCollision id1 id2 = sys.CheckCollision id2 id1 := by
  unfold GameObjectSystem.CheckCollision
  cases sys.GetObject id1 with
  | none => cases sys.GetObject id2 <;> rfl
  | some o1 =>
    cases sys.GetObject id2 with
    | none => rfl
    | some o2 => exact CheckCollisionObject_comm o1 o2

/-- C14: `a.CheckCollision(b)` equals `b.CheckCollision(a)`, both being true
exactly when some solid component of `a` and some solid component of `b` pass
the rectangle test in world coordinates; so `CheckCollision(id1, id2)` of the
registry, the test the sweep applies to a pair, gives the same result for
`(id2, id1)`. -/
theorem C14_CheckCollision_symmetric (a b : GameObject) (sys : GameObjectSystem)
    (id1 id2 : String) :
    a.CheckCollisionObject b = b.CheckCollisionObject a ∧
    (a.CheckCollisionObject b = true ↔
      ∃ c1 ∈ a.collisionComponents, c1.isSolid = true ∧
        ∃ c2 ∈ b.collisionComponents, c2.isSolid = true ∧
          CheckCollisionRecs (GameObject.worldRect a.position c1)
            (GameObject.worldRect b.position c2) = true) ∧
    (b.CheckCollisionObject a = true ↔
      ∃ c1 ∈ a.collisionComponents, c1.isSolid = true ∧
        ∃ c2 ∈ b.collisionComponents, c2.isSolid = true ∧
          CheckCollisionRecs (GameObject.worldRect a.position c1)
            (GameObject.worldRect b.position c2) = true) ∧
    sys.CheckCollision id1 id2 = sys.CheckCollision id2 id1 :=
  ⟨CheckCollisionObject_comm a b, CheckCollisionObject_iff a b,
    (CheckCollisionObject_iff b a).trans (SolidOverlap_comm b a),
    CheckCollision_comm sys id1 id2⟩

end OurGame
